import Mathlib

/-!
Timezone resolution and queries (`hphp/runtime/base/timezone.h`, `timezone.cpp`).

A shallow embedding of the `TimeZone` class of the runtime: the per-worker
zone-info cache (`GetTimeZoneInfo`), the default-zone resolver (`CurrentName`,
`SetCurrent`) and the queries of a timezone handle (`name`, `abbr`, `offset`,
`dst`, `transitions`, `getLocation`, `cloneTimeZone`).

Conventions of the embedding.

* C `int` is a 32-bit and `timelib_sll` a 64-bit two's-complement integer; values
  are mathematical integers and every narrowing is written out with `toInt` /
  `toSll`.
* A pointer is an `Option`; `none` is the null pointer.
* A member function whose C++ body can dereference a null pointer or index an
  array out of bounds returns an `Option`; `none` stands for that undefined
  behaviour.
* The functions of the timelib library, the execution context and the error
  channel are not part of the two files; they are taken as parameters (`Lib`) or
  modelled as plain state (`ExecutionContext`, the diagnostics log).
-/

namespace HPHP

/-! ## Machine integers -/

/-- Conversion of a mathematical integer to a C `int` (32-bit two's complement). -/
def toInt (x : Int) : Int := (x + 2147483648) % 4294967296 - 2147483648

/-- Conversion of a mathematical integer to a `timelib_sll` (64-bit two's complement). -/
def toSll (x : Int) : Int :=
  (x + 9223372036854775808) % 18446744073709551616 - 9223372036854775808

/-- Representable as a C `int`. -/
def isInt (x : Int) : Prop := -2147483648 ≤ x ∧ x ≤ 2147483647

instance (x : Int) : Decidable (isInt x) := by unfold isInt; infer_instance

/-- The value `abs(x)` of a `timelib_sll` as a `%d` conversion of `printf` reads it:
the absolute value, narrowed to a C `int`. -/
def cAbs (x : Int) : Int := toInt (if x < 0 then -x else x)

/-! ## timelib data (from `timelib.h`) -/

/-- Zone type tag `TIMELIB_ZONETYPE_OFFSET`. -/
def TIMELIB_ZONETYPE_OFFSET : Int := 1
/-- Zone type tag `TIMELIB_ZONETYPE_ABBR`. -/
def TIMELIB_ZONETYPE_ABBR : Int := 2
/-- Zone type tag `TIMELIB_ZONETYPE_ID`. -/
def TIMELIB_ZONETYPE_ID : Int := 3

/-- A C `double`, kept as its bit pattern; no arithmetic is done on it here. -/
structure Double where
  bits : Nat
deriving DecidableEq, Repr

/-- One entry of the type table of a rule table (`ttinfo`). -/
structure ttinfo where
  offset : Int
  isdst : Int
  abbr_idx : Nat
deriving DecidableEq, Repr

/-- Location metadata of a rule table (`tlocinfo`). -/
structure tlocinfo where
  country_code : String
  latitude : Double
  longitude : Double
  comments : String
deriving DecidableEq, Repr

/-- A parsed rule table (`timelib_tzinfo`): the fields the runtime reads. -/
structure timelib_tzinfo where
  name : String
  timecnt : Nat
  trans : List Int
  trans_idx : List Nat
  type : List ttinfo
  timezone_abbr : List Char
  location : tlocinfo
deriving DecidableEq, Repr

/-- Abbreviation payload (`timelib_abbr_info`). -/
structure timelib_abbr_info where
  utc_offset : Int
  abbr : String
  dst : Int
deriving DecidableEq, Repr

/-- Result of `timelib_get_time_zone_info` (`timelib_time_offset`). -/
structure timelib_time_offset where
  offset : Int
  is_dst : Int
deriving DecidableEq, Repr

/-- The rule database (`timelib_tzdb`): version string and index of identifiers. -/
structure timelib_tzdb where
  version : String
  index : List String
deriving DecidableEq, Repr

/-- The fields of `timelib_time` that `GetTimeZoneInfo` reads after parsing. -/
structure timelib_time where
  z : Int
  dst : Int
  zone_type : Int
  tz_info : Option timelib_tzinfo
  tz_abbr : String
deriving DecidableEq, Repr

/-- What one call of `timelib_parse_zone` leaves behind: the returned offset, the
two out-parameters `dst` and `not_found`, and the time structure `t` it was
handed, as it is after the call. -/
structure ParseZone where
  ret : Int
  dst : Int
  not_found : Int
  t : timelib_time
deriving DecidableEq, Repr

/-- One row of the abbreviation table (`timelib_tz_lookup_table`). -/
structure timelib_tz_lookup_table where
  name : String
  type : Int
  gmtoffset : Int
  full_tz_name : Option String
deriving DecidableEq, Repr

/-- The library and runtime functions the two files call but do not define. -/
structure Lib where
  timelib_builtin_db : timelib_tzdb
  timelib_parse_zone : String → timelib_tzdb → ParseZone
  timelib_timezone_id_is_valid : String → timelib_tzdb → Int
  timelib_get_time_zone_info : Int → timelib_tzinfo → timelib_time_offset
  timelib_tzinfo_clone : Option timelib_tzinfo → Option timelib_tzinfo
  timelib_timezone_abbreviations_list : List timelib_tz_lookup_table
  timelib_timezone_id_from_abbr : String → Int → Int → Option String
  have_tzlocation : Bool
  iso8601 : Int → String

/-! ## Zone info (`timezone.h`) -/

/-- The union `tzi` of `TimeZoneInfoWrap`. The three members are kept side by
side; the code reads only the member its `type` tag selects. -/
structure TziUnion where
  tz : Option timelib_tzinfo
  utc_offset : Int
  abbr : timelib_abbr_info
deriving DecidableEq, Repr

/-- The zone info record `TimeZoneInfoWrap`. -/
structure TimeZoneInfoWrap where
  type : Int
  tzi : TziUnion
deriving DecidableEq, Repr

/-- The record `calloc(1, sizeof(TimeZoneInfoWrap))` returns: all bytes zero. -/
def TimeZoneInfoWrap.zeroed : TimeZoneInfoWrap :=
  { type := 0, tzi := { tz := none, utc_offset := 0, abbr := { utc_offset := 0, abbr := "", dst := 0 } } }

/-- A non-null `std::shared_ptr<TimeZoneInfoWrap>`: the address it points to and
the (immutable) record stored there. Two pointers are the same instance when
they are equal, address included. -/
structure SharedWrap where
  addr : Nat
  obj : TimeZoneInfoWrap
deriving DecidableEq, Repr

/-- The type `TimeZoneInfo` of the header: a possibly null shared pointer. -/
abbrev TimeZoneInfo := Option SharedWrap

/-- The type `MapStringToTimeZoneInfo`: `std::map<std::string, TimeZoneInfo>` as
an association list with unique keys. -/
abbrev MapStringToTimeZoneInfo := List (String × TimeZoneInfo)

/-- The member `std::map::find`: the value stored under `key`, if any. -/
def mapFind (m : MapStringToTimeZoneInfo) (key : String) : Option TimeZoneInfo :=
  match m with
  | [] => none
  | (k, v) :: rest => if k = key then some v else mapFind rest key

/-- The assignment `m[key] = v`: overwrite the entry of `key` or add one. -/
def mapAssign (m : MapStringToTimeZoneInfo) (key : String) (v : TimeZoneInfo) :
    MapStringToTimeZoneInfo :=
  match m with
  | [] => [(key, v)]
  | (k, w) :: rest => if k = key then (k, v) :: rest else (k, w) :: mapAssign rest key v

/-- The thread-local `TimeZoneData`, together with the next address the
allocator hands out (`calloc` is assumed to succeed). -/
structure TimeZoneData where
  Database : Option timelib_tzdb
  Cache : MapStringToTimeZoneInfo
  nextAddr : Nat
deriving DecidableEq, Repr

/-- The function `TimeZone::GetDatabase`. -/
def GetDatabase (lib : Lib) (s : TimeZoneData) : timelib_tzdb × TimeZoneData :=
  match s.Database with
  | none => (lib.timelib_builtin_db, { s with Database := some lib.timelib_builtin_db })
  | some db => (db, s)

/-- The function `TimeZone::GetTimeZoneInfo`. The local `wrap` is declared without
an initialiser and is assigned only when `not_found` is zero; `wrap0` is the
indeterminate value it holds otherwise. The local `dst` receives the parser's
out-parameter and is not read again: the DST flag stored for an abbreviation is
the field `t->dst` of the time structure. -/
def GetTimeZoneInfo (lib : Lib) (wrap0 : TimeZoneInfo) (name : String) (db : timelib_tzdb)
    (s : TimeZoneData) : TimeZoneInfo × TimeZoneData :=
  match mapFind s.Cache name with
  | some found => (found, s)
  | none =>
    let p := lib.timelib_parse_zone name db
    let _dst : Int := p.dst
    let t : timelib_time := { p.t with z := p.ret }
    let alloc : TimeZoneInfo × Nat :=
      if p.not_found = 0 then
        let w0 : TimeZoneInfoWrap := { TimeZoneInfoWrap.zeroed with type := t.zone_type }
        let w : TimeZoneInfoWrap :=
          if t.zone_type = TIMELIB_ZONETYPE_ID then
            { w0 with tzi := { w0.tzi with tz := t.tz_info } }
          else if t.zone_type = TIMELIB_ZONETYPE_OFFSET then
            { w0 with tzi := { w0.tzi with utc_offset := t.z } }
          else if t.zone_type = TIMELIB_ZONETYPE_ABBR then
            { w0 with tzi := { w0.tzi with
                abbr := { dst := t.dst, abbr := t.tz_abbr, utc_offset := t.z } } }
          else w0
        (some { addr := s.nextAddr, obj := w }, s.nextAddr + 1)
      else (wrap0, s.nextAddr)
    let tzi : TimeZoneInfo := alloc.1
    match tzi with
    | some _ => (tzi, { s with Cache := mapAssign s.Cache name tzi, nextAddr := alloc.2 })
    | none => (tzi, { s with nextAddr := alloc.2 })

/-- The function `TimeZone::GetTimeZoneInfoRaw`. -/
def GetTimeZoneInfoRaw (lib : Lib) (wrap0 : TimeZoneInfo) (name : String) (db : timelib_tzdb)
    (s : TimeZoneData) : Option timelib_tzinfo × TimeZoneData :=
  let r := GetTimeZoneInfo lib wrap0 name db s
  match r.1 with
  | some w => (w.obj.tzi.tz, r.2)
  | none => (none, r.2)

/-! ## Execution context, environment and diagnostics -/

/-- Modelled from the spec: the request-scoped configuration store behind
`g_context` (`execution-context.h` is not part of the two files). It keeps the
configured timezone and the process-level default timezone as plain values. -/
structure ExecutionContext where
  m_timezone : String
  m_timezoneDefault : String
deriving DecidableEq, Repr

/-- Modelled from the spec: `getTimeZone()` reads the configured timezone. -/
def ExecutionContext.getTimeZone (c : ExecutionContext) : String := c.m_timezone

/-- Modelled from the spec: `setTimeZone(name)` stores `name` as the configured timezone. -/
def ExecutionContext.setTimeZone (c : ExecutionContext) (name : String) : ExecutionContext :=
  { c with m_timezone := name }

/-- Modelled from the spec: `getDefaultTimeZone()` reads the process-level default. -/
def ExecutionContext.getDefaultTimeZone (c : ExecutionContext) : String := c.m_timezoneDefault

/-- Severity of a raised diagnostic. -/
inductive ErrorLevel where
  | notice
  | strictWarning
deriving DecidableEq, Repr

/-- A diagnostic handed to the error channel. -/
structure Diagnostic where
  level : ErrorLevel
  message : String
deriving DecidableEq, Repr

/-- The state one worker sees: the execution context, its thread-local timezone
data, the value of the environment variable `TZ` (`none` when unset) and the
diagnostics raised so far, oldest first. -/
structure Worker where
  g_context : ExecutionContext
  s_timezone_data : TimeZoneData
  env_TZ : Option String
  raised : List Diagnostic
deriving DecidableEq, Repr

/-- Modelled from the spec: `raise_notice` reports a recoverable notice-level
diagnostic and returns (`runtime-error.h` is not part of the two files). -/
def raise_notice (msg : String) (st : Worker) : Worker :=
  { st with raised := st.raised ++ [{ level := ErrorLevel.notice, message := msg }] }

/-- Modelled from the spec: `raise_strict_warning` reports a recoverable strict
warning and returns (`runtime-error.h` is not part of the two files). -/
def raise_strict_warning (msg : String) (st : Worker) : Worker :=
  { st with raised := st.raised ++ [{ level := ErrorLevel.strictWarning, message := msg }] }

/-- The static `s_guessed_timezone`: the id and the warning text computed once at
process start. -/
structure GuessedTimeZone where
  m_tzid : String
  m_warning : String
deriving DecidableEq, Repr

/-- The function `TimeZone::IsValid`. -/
def IsValid (lib : Lib) (name : String) (st : Worker) : Bool × Worker :=
  let r := GetDatabase lib st.s_timezone_data
  (decide (lib.timelib_timezone_id_is_valid name r.1 ≠ 0), { st with s_timezone_data := r.2 })

/-- The function `TimeZone::CurrentName`. -/
def CurrentName (lib : Lib) (s_guessed_timezone : GuessedTimeZone) (st : Worker) :
    String × Worker :=
  let timezone := st.g_context.getTimeZone
  if timezone ≠ "" then (timezone, st)
  else
    let envStep : Option String × Worker :=
      match st.env_TZ with
      | none => (none, st)
      | some env =>
        if env ≠ "" then
          let v := IsValid lib env st
          if v.1 then (some env, v.2) else (none, v.2)
        else (none, st)
    match envStep.1 with
    | some env => (env, envStep.2)
    | none =>
      let st1 := envStep.2
      let default_timezone := st1.g_context.getDefaultTimeZone
      let defStep : Bool × Worker :=
        if default_timezone ≠ "" then IsValid lib default_timezone st1 else (false, st1)
      if defStep.1 then (default_timezone, defStep.2)
      else
        (s_guessed_timezone.m_tzid, raise_strict_warning s_guessed_timezone.m_warning defStep.2)

/-- The text `Timezone ID '%s' is invalid` with `%s` replaced by `zone`. -/
def invalidIdMessage (zone : String) : String :=
  "Timezone ID " ++ String.singleton (Char.ofNat 39) ++ zone ++
    String.singleton (Char.ofNat 39) ++ " is invalid"

/-- The function `TimeZone::SetCurrent`. -/
def SetCurrent (lib : Lib) (zone : String) (st : Worker) : Bool × Worker :=
  let v := IsValid lib zone st
  if v.1 = false then (false, raise_notice (invalidIdMessage zone) v.2)
  else (true, { v.2 with g_context := v.2.g_context.setTimeZone zone })

/-- The function `TimeZone::GetNames`. -/
def GetNames (lib : Lib) : List String := lib.timelib_builtin_db.index

/-! ## Values returned to the language level -/

/-- A scalar `Variant`. -/
inductive Variant where
  | null
  | bool (b : Bool)
  | int (i : Int)
  | dbl (d : Double)
  | str (s : String)
deriving DecidableEq, Repr

/-- A string-keyed `Array` of scalars, in insertion order. -/
abbrev PhpArray := List (String × Variant)

/-- The member `Array::set` on a string key: overwrite in place or append. -/
def PhpArray.set (a : PhpArray) (key : String) (v : Variant) : PhpArray :=
  match a with
  | [] => [(key, v)]
  | (k, w) :: rest => if k = key then (k, v) :: rest else (k, w) :: PhpArray.set rest key v

/-- The value stored under `key`, if any. -/
def PhpArray.lookup (a : PhpArray) (key : String) : Option Variant :=
  match a with
  | [] => none
  | (k, w) :: rest => if k = key then some w else PhpArray.lookup rest key

/-- Static string `s_ts`. -/
def s_ts : String := "ts"
/-- Static string `s_time`. -/
def s_time : String := "time"
/-- Static string `s_offset`. -/
def s_offset : String := "offset"
/-- Static string `s_isdst`. -/
def s_isdst : String := "isdst"
/-- Static string `s_abbr`. -/
def s_abbr : String := "abbr"
/-- Static string `s_country_code`. -/
def s_country_code : String := "country_code"
/-- Static string `s_latitude`. -/
def s_latitude : String := "latitude"
/-- Static string `s_longitude`. -/
def s_longitude : String := "longitude"
/-- Static string `s_comments`. -/
def s_comments : String := "comments"

/-- How `getLocation` can fail: the exception it throws, or undefined behaviour. -/
inductive Failure where
  | NotImplementedException (msg : String)
  | undefinedBehaviour
deriving DecidableEq, Repr

/-! ## C strings and `snprintf` -/

/-- The characters of `cs` up to the first NUL; `none` when there is no NUL. -/
def untilNul (cs : List Char) : Option (List Char) :=
  match cs with
  | [] => none
  | c :: rest => if c = Char.ofNat 0 then some [] else (untilNul rest).map (fun r => c :: r)

/-- The C string starting at offset `idx` of a character pool; `none` when the
offset is outside the pool or the string is not terminated inside it. -/
def cstrAt (pool : List Char) (idx : Nat) : Option String :=
  if idx < pool.length then (untilNul (pool.drop idx)).map String.mk else none

/-- The conversion `%02d` of `printf` applied to a C `int`. -/
def fmt02d (v : Int) : List Char :=
  if v < 0 then Char.ofNat 45 :: Nat.toDigits 10 v.natAbs
  else
    let ds := Nat.toDigits 10 v.toNat
    if ds.length < 2 then Char.ofNat 48 :: ds else ds

/-- The call `snprintf(buf, size, ...)`: at most `size - 1` characters are kept. -/
def snprintf (size : Nat) (formatted : List Char) : List Char := formatted.take (size - 1)

/-! ## The timezone handle (`class TimeZone`) -/

/-- The class `TimeZone`: its only data member is the shared zone info. -/
structure TimeZone where
  m_tzi : TimeZoneInfo
deriving DecidableEq, Repr

namespace TimeZone

/-- The default constructor `TimeZone::TimeZone()`. -/
def default : TimeZone := { m_tzi := none }

/-- The constructor `TimeZone::TimeZone(const String& name)`. -/
def ofName (lib : Lib) (wrap0 : TimeZoneInfo) (name : String) (s : TimeZoneData) :
    TimeZone × TimeZoneData :=
  let d := GetDatabase lib s
  let r := GetTimeZoneInfo lib wrap0 name d.1 d.2
  ({ m_tzi := r.1 }, r.2)

/-- The constructor `TimeZone::TimeZone(timelib_tzinfo *tzi)`. Its body is empty:
the argument is not stored and `m_tzi` stays default-constructed. -/
def ofTzinfo (_tzi : Option timelib_tzinfo) : TimeZone := { m_tzi := none }

/-- The member `isValid`. -/
def isValid (self : TimeZone) : Bool := self.m_tzi.isSome

/-- The member `zoneType`; `none` when the handle holds no zone info. -/
def zoneType (self : TimeZone) : Option Int := self.m_tzi.map (fun w => w.obj.type)

/-- The member `get`: the raw rule-table pointer of an Id-based handle, else null. -/
def get (self : TimeZone) : Option timelib_tzinfo :=
  match self.m_tzi with
  | some w => if w.obj.type = TIMELIB_ZONETYPE_ID then w.obj.tzi.tz else none
  | none => none

/-- The member `cloneTimeZone`. -/
def cloneTimeZone (lib : Lib) (self : TimeZone) : TimeZone :=
  match self.m_tzi with
  | none => TimeZone.default
  | some _ => ofTzinfo (lib.timelib_tzinfo_clone self.get)

/-- The member `name`. -/
def name (self : TimeZone) : Option String :=
  match self.m_tzi with
  | none => some ""
  | some w =>
    if w.obj.type = TIMELIB_ZONETYPE_ID then
      w.obj.tzi.tz.map (fun tz => tz.name)
    else if w.obj.type = TIMELIB_ZONETYPE_OFFSET then
      let utc_offset := w.obj.tzi.utc_offset
      some (String.mk (snprintf 7
        ((if utc_offset > 0 then Char.ofNat 45 else Char.ofNat 43) ::
          (fmt02d (cAbs (Int.tdiv utc_offset 60)) ++
            Char.ofNat 58 :: fmt02d (cAbs (Int.tmod utc_offset 60))))))
    else if w.obj.type = TIMELIB_ZONETYPE_ABBR then
      some w.obj.tzi.abbr.abbr
    else some ""

/-- The member `abbr`. -/
def abbr (self : TimeZone) (type : Int) : Option String :=
  match self.m_tzi with
  | none => some ""
  | some w =>
    if w.obj.type = TIMELIB_ZONETYPE_ID then
      match self.get with
      | none => none
      | some tz =>
        if type < 0 then none
        else
          match tz.type[type.toNat]? with
          | none => none
          | some ti => cstrAt tz.timezone_abbr ti.abbr_idx
    else if w.obj.type = TIMELIB_ZONETYPE_OFFSET ∨ w.obj.type = TIMELIB_ZONETYPE_ABBR then
      self.name
    else some ""

/-- The member `offset`. -/
def offset (lib : Lib) (self : TimeZone) (timestamp : Int) : Option Int :=
  match self.m_tzi with
  | none => some 0
  | some w =>
    if w.obj.type = TIMELIB_ZONETYPE_ID then
      self.get.map (fun tz => (lib.timelib_get_time_zone_info timestamp tz).offset)
    else if w.obj.type = TIMELIB_ZONETYPE_OFFSET then
      some (toInt (toSll (w.obj.tzi.utc_offset * -60)))
    else if w.obj.type = TIMELIB_ZONETYPE_ABBR then
      some (toInt (toSll (toSll (w.obj.tzi.abbr.utc_offset - toInt (w.obj.tzi.abbr.dst * 60)) * -60)))
    else some 0

/-- The member `dst`. -/
def dst (lib : Lib) (self : TimeZone) (timestamp : Int) : Option Bool :=
  match self.m_tzi with
  | none => some false
  | some w =>
    if w.obj.type = TIMELIB_ZONETYPE_ID then
      self.get.map (fun tz => decide ((lib.timelib_get_time_zone_info timestamp tz).is_dst ≠ 0))
    else if w.obj.type = TIMELIB_ZONETYPE_OFFSET then
      some false
    else if w.obj.type = TIMELIB_ZONETYPE_ABBR then
      some (decide (w.obj.tzi.abbr.dst = 1))
    else some false

/-- One pass of the loop body of `transitions` for index `i`. -/
def transitionAt (lib : Lib) (tz : timelib_tzinfo) (i : Nat) : Option PhpArray :=
  match tz.trans_idx[i]?, tz.trans[i]? with
  | some index, some timestamp =>
    match tz.type[index]? with
    | none => none
    | some offset =>
      match cstrAt tz.timezone_abbr offset.abbr_idx with
      | none => none
      | some abbr =>
        some [(s_ts, Variant.int timestamp),
              (s_time, Variant.str (lib.iso8601 timestamp)),
              (s_offset, Variant.int offset.offset),
              (s_isdst, Variant.bool (decide (offset.isdst ≠ 0))),
              (s_abbr, Variant.str abbr)]
  | _, _ => none

/-- The loop `for (i = from; i < timecnt; ++i)` of `transitions`, appending to `ret`. -/
def transitionsLoop (lib : Lib) (tz : timelib_tzinfo) (todo : Nat) (i : Nat)
    (ret : List PhpArray) : Option (List PhpArray) :=
  match todo with
  | 0 => some ret
  | todo + 1 =>
    match transitionAt lib tz i with
    | none => none
    | some entry => transitionsLoop lib tz todo (i + 1) (ret ++ [entry])

/-- The member `transitions`. -/
def transitions (lib : Lib) (self : TimeZone) : Option (List PhpArray) :=
  match self.m_tzi with
  | none => some []
  | some w =>
    if w.obj.type = TIMELIB_ZONETYPE_ID then
      match self.get with
      | none => none
      | some tz => transitionsLoop lib tz tz.timecnt 0 []
    else some []

/-- The member `getLocation`. -/
def getLocation (lib : Lib) (self : TimeZone) : Except Failure PhpArray :=
  match self.m_tzi with
  | none => Except.ok []
  | some w =>
    if w.obj.type ≠ TIMELIB_ZONETYPE_ID then Except.ok []
    else if lib.have_tzlocation then
      match self.get with
      | none => Except.error Failure.undefinedBehaviour
      | some tz =>
        Except.ok
          ((((PhpArray.set [] s_country_code (Variant.str tz.location.country_code)).set
            s_latitude (Variant.dbl tz.location.latitude)).set
            s_longitude (Variant.dbl tz.location.longitude)).set
            s_comments (Variant.str tz.location.comments))
    else Except.error (Failure.NotImplementedException "timelib version too old")

/-- The static member `getVersion`. -/
def getVersion (lib : Lib) (s : TimeZoneData) : String × TimeZoneData :=
  let d := GetDatabase lib s
  (d.1.version, d.2)

end TimeZone

/-! ## Statements of the specification, written out -/

/-- The decimal digit character of `n` (for `n < 10`). -/
def digitChar (n : Nat) : Char := Char.ofNat (48 + n)

/-- The text `sHH:MM` the specification gives for a fixed offset of `m` stored
minutes: `s` is `-` when `m > 0` and `+` otherwise, `HH` is `|m| div 60` and `MM`
is `|m| mod 60`, two decimal digits each. -/
def signedHHMM (m : Int) : String :=
  String.mk [if m > 0 then Char.ofNat 45 else Char.ofNat 43,
    digitChar (m.natAbs / 60 / 10), digitChar (m.natAbs / 60 % 10), Char.ofNat 58,
    digitChar (m.natAbs % 60 / 10), digitChar (m.natAbs % 60 % 10)]

/-- The priority chain the specification gives for the current zone name: the
configured name if non-empty, else `TZ` if set, non-empty and valid, else the
process default if non-empty and valid, else the guessed id. -/
def priorityChain (configured : String) (tz : Option String) (processDefault : String)
    (valid : String → Bool) (guessed : String) : String :=
  if configured ≠ "" then configured
  else
    match tz with
    | some env =>
      if env ≠ "" ∧ valid env = true then env
      else if processDefault ≠ "" ∧ valid processDefault = true then processDefault
      else guessed
    | none =>
      if processDefault ≠ "" ∧ valid processDefault = true then processDefault
      else guessed

/-- The integer stored under the key `ts` of a transition entry (0 if there is none). -/
def timestampOf (entry : PhpArray) : Int :=
  match PhpArray.lookup entry s_ts with
  | some (Variant.int t) => t
  | _ => 0

/-- What the C code takes for granted of a rule table: the arrays `trans` and
`trans_idx` hold `timecnt` elements, every transition names an existing type
entry, and that entry's abbreviation is a terminated string of the pool. -/
def timelib_tzinfo.wellFormed (tz : timelib_tzinfo) : Prop :=
  tz.trans.length = tz.timecnt ∧ tz.trans_idx.length = tz.timecnt ∧
  ∀ index ∈ tz.trans_idx, ∃ ti, tz.type[index]? = some ti ∧
    (cstrAt tz.timezone_abbr ti.abbr_idx).isSome = true

/-- A handle at address `addr` holding a record with the given tag and union. -/
def TimeZone.holding (addr : Nat) (type : Int) (tzi : TziUnion) : TimeZone :=
  { m_tzi := some { addr := addr, obj := { type := type, tzi := tzi } } }

/-! ## Sample data for concrete instances -/

/-- A rule table with two transitions and the type entries EST and EDT. -/
def sampleTzinfo : timelib_tzinfo :=
  { name := "America/New_York",
    timecnt := 2,
    trans := [100, 200],
    trans_idx := [1, 0],
    type := [{ offset := -18000, isdst := 0, abbr_idx := 4 },
             { offset := -14400, isdst := 1, abbr_idx := 0 }],
    timezone_abbr := [Char.ofNat 69, Char.ofNat 68, Char.ofNat 84, Char.ofNat 0,
                      Char.ofNat 69, Char.ofNat 83, Char.ofNat 84, Char.ofNat 0],
    location := { country_code := "US", latitude := { bits := 0 }, longitude := { bits := 0 },
                  comments := "" } }

/-- A sample database with three identifiers. -/
def sampleDb : timelib_tzdb :=
  { version := "2014.1", index := ["America/New_York", "Asia/Tokyo", "UTC"] }

/-- A sample parser: identifiers of the database, the offset `-05:00` and the
abbreviations `EST` and `EDT` are found, every other name is not. For an
abbreviation the DST flag is reported through the out-parameter `dst`; the field
`dst` of the time structure keeps the zero it was constructed with. `EDT` is
reported as 300 minutes with DST flag 1, which is UTC-4. -/
def sampleParse (name : String) (db : timelib_tzdb) : ParseZone :=
  if name ∈ db.index then
    { ret := 0, dst := 0, not_found := 0,
      t := { z := 0, dst := 0, zone_type := TIMELIB_ZONETYPE_ID,
             tz_info := some { sampleTzinfo with name := name }, tz_abbr := "" } }
  else if name = "-05:00" then
    { ret := 300, dst := 0, not_found := 0,
      t := { z := 0, dst := 0, zone_type := TIMELIB_ZONETYPE_OFFSET, tz_info := none,
             tz_abbr := "" } }
  else if name = "EST" then
    { ret := 300, dst := 0, not_found := 0,
      t := { z := 0, dst := 0, zone_type := TIMELIB_ZONETYPE_ABBR, tz_info := none,
             tz_abbr := "EST" } }
  else if name = "EDT" then
    { ret := 300, dst := 1, not_found := 0,
      t := { z := 0, dst := 0, zone_type := TIMELIB_ZONETYPE_ABBR, tz_info := none,
             tz_abbr := "EDT" } }
  else
    { ret := 0, dst := 0, not_found := 1,
      t := { z := 0, dst := 0, zone_type := 0, tz_info := none, tz_abbr := "" } }

/-- A sample library over `sampleDb`. -/
def sampleLib : Lib :=
  { timelib_builtin_db := sampleDb,
    timelib_parse_zone := sampleParse,
    timelib_timezone_id_is_valid := fun name db => if name ∈ db.index then 1 else 0,
    timelib_get_time_zone_info := fun _ tz =>
      match tz.type with
      | ti :: _ => { offset := ti.offset, is_dst := ti.isdst }
      | [] => { offset := 0, is_dst := 0 },
    timelib_tzinfo_clone := fun tz => tz,
    timelib_timezone_abbreviations_list :=
      [{ name := "est", type := 0, gmtoffset := -18000, full_tz_name := some "America/New_York" },
       { name := "edt", type := 1, gmtoffset := -14400, full_tz_name := some "America/New_York" },
       { name := "est", type := 0, gmtoffset := -18000, full_tz_name := none }],
    timelib_timezone_id_from_abbr := fun abbr _ _ =>
      if abbr = "est" then some "America/New_York" else none,
    have_tzlocation := true,
    iso8601 := fun _ => "1970-01-01T00:00:00+0000" }

/-- A worker state with nothing loaded: empty cache, no database handle. -/
def sampleData : TimeZoneData := { Database := none, Cache := [], nextAddr := 1 }

/-- A worker whose configured timezone is `Asia/Tokyo`, with `TZ` unset. -/
def sampleWorker : Worker :=
  { g_context := { m_timezone := "Asia/Tokyo", m_timezoneDefault := "" },
    s_timezone_data := sampleData,
    env_TZ := none,
    raised := [] }

/-- The sample guessed zone. -/
def sampleGuess : GuessedTimeZone := { m_tzid := "UTC", m_warning := "We selected UTC" }

/-! ## Parser calls, sequences of calls -/

/-- The function `GetTimeZoneInfo` together with a log of the names handed to
`timelib_parse_zone`: the call of the parser is reached exactly when the cache
lookup misses, and then it is made once. -/
def GetTimeZoneInfoLogged (lib : Lib) (wrap0 : TimeZoneInfo) (name : String)
    (db : timelib_tzdb) (s : TimeZoneData) (log : List String) :
    (TimeZoneInfo × TimeZoneData) × List String :=
  match mapFind s.Cache name with
  | some found => ((found, s), log)
  | none => (GetTimeZoneInfo lib wrap0 name db s, log ++ [name])

/-- A sequence of `GetTimeZoneInfo` calls of one worker against one database; each
call comes with the value its unassigned local `wrap` holds and the name asked
for. The result is the worker data and the parser log after the last call. -/
def resolveAll (lib : Lib) (db : timelib_tzdb) (calls : List (TimeZoneInfo × String))
    (s : TimeZoneData) (log : List String) : TimeZoneData × List String :=
  match calls with
  | [] => (s, log)
  | (wrap0, name) :: rest =>
    let r := GetTimeZoneInfoLogged lib wrap0 name db s log
    resolveAll lib db rest r.1.2 r.2

/-- A sequence of `SetCurrent` calls; the result is the worker state after the last. -/
def setCurrentAll (lib : Lib) (names : List String) (st : Worker) : Worker :=
  match names with
  | [] => st
  | name :: rest => setCurrentAll lib rest (SetCurrent lib name st).2

/-- The condition under which no alternative of the priority chain before the
guessed zone is satisfied: the configured name is empty, `TZ` is unset, empty or
invalid, and the process default is empty or invalid. -/
def noAlternative (configured : String) (tz : Option String) (processDefault : String)
    (valid : String → Bool) : Bool :=
  decide (configured = "") &&
  (match tz with
   | none => true
   | some env => decide (env = "") || !valid env) &&
  (decide (processDefault = "") || !valid processDefault)

/-! ## Abbreviations -/

/-- Static string `s_dst`. -/
def s_dst : String := "dst"
/-- Static string `s_timezone_id`. -/
def s_timezone_id : String := "timezone_id"

/-- The array `GetAbbreviations` builds: under each key an array of elements, keys
in order of first insertion. -/
abbrev AbbrArray := List (String × List PhpArray)

/-- The element built for one row of the abbreviation table. The C type of
`gmtoffset` is declared in `timelib.h`; the value is stored as the integer number
of seconds the specification gives for `offset`. -/
def abbreviationElement (entry : timelib_tz_lookup_table) : PhpArray :=
  ((PhpArray.set [] s_dst (Variant.bool (decide (entry.type ≠ 0)))).set
    s_offset (Variant.int entry.gmtoffset)).set
    s_timezone_id
      (match entry.full_tz_name with
       | some full => Variant.str full
       | none => Variant.null)

/-- The statement `forceToArray(ret.lvalAt(key)).append(element)`: append to the
array under `key`, creating the key with an empty array first when it is new. -/
def AbbrArray.appendAt (ret : AbbrArray) (key : String) (element : PhpArray) : AbbrArray :=
  match ret with
  | [] => [(key, [element])]
  | (k, v) :: rest =>
    if k = key then (k, v ++ [element]) :: rest
    else (k, v) :: AbbrArray.appendAt rest key element

/-- The array stored under `key`, if the key exists. -/
def AbbrArray.lookup (ret : AbbrArray) (key : String) : Option (List PhpArray) :=
  match ret with
  | [] => none
  | (k, v) :: rest => if k = key then some v else AbbrArray.lookup rest key

/-- The loop of `GetAbbreviations` over the rows not yet visited. -/
def abbreviationsLoop (table : List timelib_tz_lookup_table) (ret : AbbrArray) : AbbrArray :=
  match table with
  | [] => ret
  | entry :: rest =>
    abbreviationsLoop rest (AbbrArray.appendAt ret entry.name (abbreviationElement entry))

/-- The function `TimeZone::GetAbbreviations`. -/
def GetAbbreviations (lib : Lib) : AbbrArray :=
  abbreviationsLoop lib.timelib_timezone_abbreviations_list []

/-! ## Machine-integer and formatting lemmas -/

theorem toInt_of_isInt (x : Int) (h : isInt x) : toInt x = x := by
  unfold isInt at h
  unfold toInt
  omega

theorem toSll_of_isInt (x : Int) (h : isInt x) : toSll x = x := by
  unfold isInt at h
  unfold toSll
  omega

set_option maxRecDepth 100000 in
theorem fmt02d_two_digits : ∀ n : Nat, n < 100 →
    fmt02d (n : Int) = [digitChar (n / 10), digitChar (n % 10)] := by
  decide

theorem cAbs_tdiv (m : Int) (h : m.natAbs < 6000) :
    cAbs (Int.tdiv m 60) = ((m.natAbs / 60 : Nat) : Int) := by
  have h1 : (Int.tdiv m 60).natAbs = m.natAbs / 60 := by
    rw [Int.natAbs_tdiv]; rfl
  unfold cAbs toInt
  split <;> omega

theorem cAbs_tmod (m : Int) (h : m.natAbs < 6000) :
    cAbs (Int.tmod m 60) = ((m.natAbs % 60 : Nat) : Int) := by
  have h1 : (Int.tmod m 60).natAbs = m.natAbs % 60 := by
    cases m with
    | ofNat n => rfl
    | negSucc k => simp [Int.tmod]; omega
  unfold cAbs toInt
  split <;> omega

/-! ## The zone-info cache -/

theorem mapFind_mapAssign_self (m : MapStringToTimeZoneInfo) (key : String) (v : TimeZoneInfo) :
    mapFind (mapAssign m key v) key = some v := by
  induction m with
  | nil => simp [mapAssign, mapFind]
  | cons e rest ih =>
    obtain ⟨k, w⟩ := e
    by_cases h : k = key
    · simp [mapAssign, mapFind, h]
    · simp [mapAssign, mapFind, h, ih]

theorem GetTimeZoneInfo_hit (lib : Lib) (wrap0 : TimeZoneInfo) (name : String)
    (db : timelib_tzdb) (s : TimeZoneData) (v : TimeZoneInfo)
    (h : mapFind s.Cache name = some v) :
    GetTimeZoneInfo lib wrap0 name db s = (v, s) := by
  simp [GetTimeZoneInfo, h]

theorem GetTimeZoneInfo_found_miss (lib : Lib) (wrap0 : TimeZoneInfo) (name : String)
    (db : timelib_tzdb) (s : TimeZoneData)
    (hmiss : mapFind s.Cache name = none)
    (hfound : (lib.timelib_parse_zone name db).not_found = 0) :
    ∃ w : SharedWrap, w.addr = s.nextAddr ∧
      GetTimeZoneInfo lib wrap0 name db s =
        (some w, { s with Cache := mapAssign s.Cache name (some w),
                          nextAddr := s.nextAddr + 1 }) := by
  simp only [GetTimeZoneInfo, hmiss, hfound, if_true]
  exact ⟨_, rfl, rfl⟩

/-- When the name is not found and the unassigned local `wrap` happens to be
null, the result is the null zone info and the worker data is untouched. -/
theorem GetTimeZoneInfo_not_found_null (lib : Lib) (name : String) (db : timelib_tzdb)
    (s : TimeZoneData) (hmiss : mapFind s.Cache name = none)
    (hnf : (lib.timelib_parse_zone name db).not_found ≠ 0) :
    GetTimeZoneInfo lib none name db s = (none, s) := by
  simp [GetTimeZoneInfo, hmiss, hnf]

/-- When the name is not found and the unassigned local `wrap` is not null, that
value is returned as a zone info and stored in the cache under the name. -/
theorem GetTimeZoneInfo_not_found_nonnull (lib : Lib) (g : SharedWrap) (name : String)
    (db : timelib_tzdb) (s : TimeZoneData) (hmiss : mapFind s.Cache name = none)
    (hnf : (lib.timelib_parse_zone name db).not_found ≠ 0) :
    GetTimeZoneInfo lib (some g) name db s =
      (some g, { s with Cache := mapAssign s.Cache name (some g) }) := by
  simp [GetTimeZoneInfo, hmiss, hnf]

/-- Claim C1: for a name the parser reports as found and any worker data, two
successive calls of `GetTimeZoneInfo` on that name return the same zone-info
instance (same address, same record); the second call is a hit on the entry the
cache holds after the first call and leaves the worker data, cache included,
unchanged; and the instance is non-null when the first call was a miss. -/
theorem GetTimeZoneInfo_twice_same_instance (lib : Lib) (wrapA wrapB : TimeZoneInfo)
    (name : String) (db db2 : timelib_tzdb) (s : TimeZoneData)
    (hfound : (lib.timelib_parse_zone name db).not_found = 0) :
    (GetTimeZoneInfo lib wrapB name db2 (GetTimeZoneInfo lib wrapA name db s).2).1
        = (GetTimeZoneInfo lib wrapA name db s).1 ∧
    (GetTimeZoneInfo lib wrapB name db2 (GetTimeZoneInfo lib wrapA name db s).2).2
        = (GetTimeZoneInfo lib wrapA name db s).2 ∧
    mapFind (GetTimeZoneInfo lib wrapA name db s).2.Cache name
        = some (GetTimeZoneInfo lib wrapA name db s).1 ∧
    (mapFind s.Cache name = none → (GetTimeZoneInfo lib wrapA name db s).1.isSome = true) := by
  cases hc : mapFind s.Cache name with
  | some v =>
    rw [GetTimeZoneInfo_hit lib wrapA name db s v hc]
    simp [GetTimeZoneInfo_hit lib wrapB name db2 s v hc, hc]
  | none =>
    obtain ⟨w, _, hw⟩ := GetTimeZoneInfo_found_miss lib wrapA name db s hc hfound
    rw [hw]
    have h2 := mapFind_mapAssign_self s.Cache name (some w)
    have h3 := GetTimeZoneInfo_hit lib wrapB name db2
      { s with Cache := mapAssign s.Cache name (some w), nextAddr := s.nextAddr + 1 } (some w) h2
    simp [h3, h2]

/-- Claim C1 at a concrete input: resolving `America/New_York` twice from the
empty cache of the sample worker. -/
theorem GetTimeZoneInfo_twice_same_instance_witness :
    (sampleLib.timelib_parse_zone "America/New_York" sampleDb).not_found = 0 ∧
    (GetTimeZoneInfo sampleLib none "America/New_York" sampleDb
        (GetTimeZoneInfo sampleLib none "America/New_York" sampleDb sampleData).2).1
      = (GetTimeZoneInfo sampleLib none "America/New_York" sampleDb sampleData).1 :=
  ⟨by decide,
   (GetTimeZoneInfo_twice_same_instance sampleLib none none "America/New_York" sampleDb sampleDb
      sampleData (by decide)).1⟩

/-- Claim C2, evaluated where the code departs from it: `Not/AZone` is not found
by the parser and is no cache key, the unassigned local `wrap` holds a non-null
value, and `GetTimeZoneInfo` returns that value as a valid zone info and adds it
to the cache. -/
theorem GetTimeZoneInfo_not_found_caches_garbage :
    (sampleLib.timelib_parse_zone "Not/AZone" sampleDb).not_found = 1 ∧
    mapFind sampleData.Cache "Not/AZone" = none ∧
    (TimeZone.mk (GetTimeZoneInfo sampleLib (some { addr := 4096, obj := TimeZoneInfoWrap.zeroed })
      "Not/AZone" sampleDb sampleData).1).isValid = true ∧
    (GetTimeZoneInfo sampleLib (some { addr := 4096, obj := TimeZoneInfoWrap.zeroed })
      "Not/AZone" sampleDb sampleData).2.Cache
      = [("Not/AZone", some { addr := 4096, obj := TimeZoneInfoWrap.zeroed })] ∧
    (GetTimeZoneInfo sampleLib (some { addr := 4096, obj := TimeZoneInfoWrap.zeroed })
      "Not/AZone" sampleDb sampleData).2.Cache ≠ sampleData.Cache := by
  decide

/-! ## Cloning -/

theorem cloneTimeZone_m_tzi (lib : Lib) (self : TimeZone) :
    (TimeZone.cloneTimeZone lib self).m_tzi = none := by
  unfold TimeZone.cloneTimeZone
  cases self.m_tzi <;> rfl

/-- Claim C3, evaluated where the code departs from it: the clone of a valid
Fixed-offset handle and the clone of a valid Id-based handle are both invalid,
and the clone of the Fixed-offset handle named `-05:00` has the empty name. -/
theorem cloneTimeZone_of_valid_is_invalid :
    (TimeZone.holding 1 TIMELIB_ZONETYPE_OFFSET
      { TimeZoneInfoWrap.zeroed.tzi with utc_offset := 300 }).isValid = true ∧
    (TimeZone.cloneTimeZone sampleLib (TimeZone.holding 1 TIMELIB_ZONETYPE_OFFSET
      { TimeZoneInfoWrap.zeroed.tzi with utc_offset := 300 })).isValid = false ∧
    (TimeZone.holding 1 TIMELIB_ZONETYPE_OFFSET
      { TimeZoneInfoWrap.zeroed.tzi with utc_offset := 300 }).name = some "-05:00" ∧
    (TimeZone.cloneTimeZone sampleLib (TimeZone.holding 1 TIMELIB_ZONETYPE_OFFSET
      { TimeZoneInfoWrap.zeroed.tzi with utc_offset := 300 })).name = some "" ∧
    (TimeZone.holding 3 TIMELIB_ZONETYPE_ID
      { TimeZoneInfoWrap.zeroed.tzi with tz := some sampleTzinfo }).isValid = true ∧
    (TimeZone.cloneTimeZone sampleLib (TimeZone.holding 3 TIMELIB_ZONETYPE_ID
      { TimeZoneInfoWrap.zeroed.tzi with tz := some sampleTzinfo })).isValid = false := by
  decide

/-! ## Fixed-offset zones -/

theorem fixed_offset_value (lib : Lib) (addr : Nat) (u : TziUnion) (t : Int)
    (hrep : isInt (-60 * u.utc_offset)) :
    (TimeZone.holding addr TIMELIB_ZONETYPE_OFFSET u).offset lib t
      = some (-60 * u.utc_offset) := by
  have h1 : u.utc_offset * -60 = -60 * u.utc_offset := by ring
  simp only [TimeZone.offset, TimeZone.holding, TIMELIB_ZONETYPE_OFFSET, TIMELIB_ZONETYPE_ID]
  simp only [h1, toSll_of_isInt _ hrep, toInt_of_isInt _ hrep]
  simp

/-- Claim C4: for a Fixed-offset zone with stored offset `m` minutes such that
`-60 * m` is representable as an `int`, and every timestamp `t`,
`offset(t) = -60 * m` and `dst(t) = false`; neither depends on `t`. -/
theorem fixed_offset_constant (lib : Lib) (addr : Nat) (u : TziUnion) (t : Int)
    (hrep : isInt (-60 * u.utc_offset)) :
    (TimeZone.holding addr TIMELIB_ZONETYPE_OFFSET u).offset lib t = some (-60 * u.utc_offset) ∧
    (TimeZone.holding addr TIMELIB_ZONETYPE_OFFSET u).dst lib t = some false := by
  refine ⟨fixed_offset_value lib addr u t hrep, ?_⟩
  simp [TimeZone.dst, TimeZone.holding, TIMELIB_ZONETYPE_OFFSET, TIMELIB_ZONETYPE_ID]

/-- Claim C4 at a concrete input: stored offset 300 minutes. -/
theorem fixed_offset_constant_witness :
    (TimeZone.holding 1 TIMELIB_ZONETYPE_OFFSET
        { TimeZoneInfoWrap.zeroed.tzi with utc_offset := 300 }).offset sampleLib 1400000000
      = some (-60 * 300) ∧
    (TimeZone.holding 1 TIMELIB_ZONETYPE_OFFSET
        { TimeZoneInfoWrap.zeroed.tzi with utc_offset := 300 }).dst sampleLib 1400000000
      = some false :=
  fixed_offset_constant sampleLib 1 { TimeZoneInfoWrap.zeroed.tzi with utc_offset := 300 }
    1400000000 (by decide)

/-- Claim C5: for a Fixed-offset zone with stored offset `m` minutes, `|m| < 6000`,
`name()` is the six-character text `sHH:MM` with `s = -` when `m > 0` and `+`
otherwise, `HH = |m| div 60`, `MM = |m| mod 60`; the signed value displayed, in
seconds, is `offset(t)` for every `t`; stored 300 gives `-05:00` and `-18000`. -/
theorem fixed_offset_name (lib : Lib) (addr : Nat) (u : TziUnion)
    (hsmall : u.utc_offset.natAbs < 6000) :
    (TimeZone.holding addr TIMELIB_ZONETYPE_OFFSET u).name = some (signedHHMM u.utc_offset) ∧
    (signedHHMM u.utc_offset).length = 6 ∧
    (∀ t : Int, (TimeZone.holding addr TIMELIB_ZONETYPE_OFFSET u).offset lib t =
      some ((if u.utc_offset > 0 then (-1 : Int) else 1) *
        (60 * ((u.utc_offset.natAbs / 60 : Nat) : Int) + ((u.utc_offset.natAbs % 60 : Nat) : Int))
          * 60)) ∧
    (u.utc_offset = 300 →
      (TimeZone.holding addr TIMELIB_ZONETYPE_OFFSET u).name = some "-05:00" ∧
      ∀ t : Int, (TimeZone.holding addr TIMELIB_ZONETYPE_OFFSET u).offset lib t = some (-18000)) := by
  have hname : (TimeZone.holding addr TIMELIB_ZONETYPE_OFFSET u).name
      = some (signedHHMM u.utc_offset) := by
    have hh : u.utc_offset.natAbs / 60 < 100 := by omega
    have hm : u.utc_offset.natAbs % 60 < 100 := by omega
    simp only [TimeZone.name, TimeZone.holding, TIMELIB_ZONETYPE_OFFSET, TIMELIB_ZONETYPE_ID,
      cAbs_tdiv _ hsmall, cAbs_tmod _ hsmall, fmt02d_two_digits _ hh, fmt02d_two_digits _ hm,
      snprintf, signedHHMM]
    simp
  have hrep : isInt (-60 * u.utc_offset) := by unfold isInt; omega
  have hoff := fun t => fixed_offset_value lib addr u t hrep
  refine ⟨hname, rfl, ?_, ?_⟩
  · intro t
    rw [hoff t]
    congr 1
    split <;> omega
  · intro h300
    refine ⟨?_, ?_⟩
    · rw [hname, h300]; decide
    · intro t; rw [hoff t, h300]; rfl

/-- Claim C5 at a concrete input: stored offset -330 minutes (UTC+5:30). -/
theorem fixed_offset_name_witness :
    (TimeZone.holding 1 TIMELIB_ZONETYPE_OFFSET
      { TimeZoneInfoWrap.zeroed.tzi with utc_offset := -330 }).name
        = some (signedHHMM (-330)) ∧
    signedHHMM (-330) = "+05:30" :=
  ⟨(fixed_offset_name sampleLib 1 { TimeZoneInfoWrap.zeroed.tzi with utc_offset := -330 }
      (by decide)).1, by decide⟩

/-! ## The default-zone resolver -/

theorem IsValid_frame (lib : Lib) (name : String) (st : Worker) :
    (IsValid lib name st).2.g_context = st.g_context ∧
    (IsValid lib name st).2.env_TZ = st.env_TZ ∧
    (IsValid lib name st).2.raised = st.raised := by
  simp [IsValid]

theorem GetDatabase_idem (lib : Lib) (s : TimeZoneData) :
    (GetDatabase lib (GetDatabase lib s).2).1 = (GetDatabase lib s).1 := by
  unfold GetDatabase
  cases h : s.Database <;> simp [h]

theorem IsValid_after_IsValid (lib : Lib) (a b : String) (st : Worker) :
    (IsValid lib b (IsValid lib a st).2).1 = (IsValid lib b st).1 := by
  simp [IsValid, GetDatabase_idem]

/-- Claim C6: `CurrentName()` returns the first satisfied alternative of the
priority chain (configured name if non-empty; else `TZ` if set, non-empty and
valid; else the process default if non-empty and valid; else the guessed id),
for every worker state. A configured `Asia/Tokyo` is returned whatever `TZ` is,
and an empty configured name with a valid `TZ = America/New_York` returns `TZ`. -/
theorem CurrentName_priority (lib : Lib) (g : GuessedTimeZone) (st : Worker) :
    (CurrentName lib g st).1 =
      priorityChain st.g_context.getTimeZone st.env_TZ st.g_context.getDefaultTimeZone
        (fun n => (IsValid lib n st).1) g.m_tzid ∧
    (st.g_context.getTimeZone = "Asia/Tokyo" → (CurrentName lib g st).1 = "Asia/Tokyo") ∧
    (st.g_context.getTimeZone = "" → st.env_TZ = some "America/New_York" →
      (IsValid lib "America/New_York" st).1 = true →
      (CurrentName lib g st).1 = "America/New_York") := by
  have main : (CurrentName lib g st).1 =
      priorityChain st.g_context.getTimeZone st.env_TZ st.g_context.getDefaultTimeZone
        (fun n => (IsValid lib n st).1) g.m_tzid := by
    unfold CurrentName priorityChain
    by_cases hc : st.g_context.getTimeZone = ""
    · simp only [hc, ne_eq, not_true_eq_false, if_false]
      cases henv : st.env_TZ with
      | none =>
        by_cases hd : st.g_context.getDefaultTimeZone = ""
        · simp [hd]
        · by_cases hv : (IsValid lib st.g_context.getDefaultTimeZone st).1 = true
          · simp [hd, hv]
          · simp [hd, hv]
      | some env =>
        by_cases he : env = ""
        · by_cases hd : st.g_context.getDefaultTimeZone = ""
          · simp [he, hd]
          · by_cases hv : (IsValid lib st.g_context.getDefaultTimeZone st).1 = true
            · simp [he, hd, hv]
            · simp [he, hd, hv]
        · by_cases hev : (IsValid lib env st).1 = true
          · simp [he, hev]
          · have hg := (IsValid_frame lib env st).1
            by_cases hd : st.g_context.getDefaultTimeZone = ""
            · simp [he, hev, hd, hg]
            · by_cases hv : (IsValid lib st.g_context.getDefaultTimeZone st).1 = true
              · simp [he, hev, hd, hg, IsValid_after_IsValid, hv]
              · simp [he, hev, hd, hg, IsValid_after_IsValid, hv]
    · simp [hc]
  refine ⟨main, ?_, ?_⟩
  · intro h
    rw [main, h]
    simp [priorityChain]
  · intro h1 h2 h3
    rw [main, h1, h2]
    simp [priorityChain, h3]

/-- Claim C7: `SetCurrent(name)` with an invalid name returns false, raises
exactly one notice and leaves the execution context unchanged; with a valid name
it returns true, raises nothing and the configured timezone is `name` afterwards.
`SetCurrent("Not/AZone")` on the sample worker returns false and the configured
timezone is still `Asia/Tokyo`. -/
theorem SetCurrent_spec (lib : Lib) (name : String) (st : Worker) :
    ((IsValid lib name st).1 = false →
      (SetCurrent lib name st).1 = false ∧
      (SetCurrent lib name st).2.raised =
        st.raised ++ [{ level := ErrorLevel.notice, message := invalidIdMessage name }] ∧
      (SetCurrent lib name st).2.g_context = st.g_context) ∧
    ((IsValid lib name st).1 = true →
      (SetCurrent lib name st).1 = true ∧
      (SetCurrent lib name st).2.raised = st.raised ∧
      (SetCurrent lib name st).2.g_context.getTimeZone = name ∧
      (SetCurrent lib name st).2.g_context.getDefaultTimeZone = st.g_context.getDefaultTimeZone) ∧
    ((SetCurrent sampleLib "Not/AZone" sampleWorker).1 = false ∧
      (SetCurrent sampleLib "Not/AZone" sampleWorker).2.g_context.getTimeZone = "Asia/Tokyo") := by
  refine ⟨?_, ?_, ?_⟩
  · intro h
    simp [SetCurrent, h, raise_notice, IsValid_frame]
  · intro h
    simp [SetCurrent, h, IsValid_frame, ExecutionContext.setTimeZone,
      ExecutionContext.getTimeZone, ExecutionContext.getDefaultTimeZone]
  · decide

/-! ## Queries on a handle -/

/-- Claim C8: on an invalid handle (one holding no zone info, as the default
constructor builds) every query returns its neutral default and none fails:
`name() = ""`, `abbr(i) = ""`, `offset(t) = 0`, `dst(t) = false`,
`transitions()` is empty and `getLocation()` is the empty result. -/
theorem invalid_handle_defaults (lib : Lib) (h : TimeZone) (t i : Int)
    (hinv : h.isValid = false) :
    h.name = some "" ∧ h.abbr i = some "" ∧ h.offset lib t = some 0 ∧
    h.dst lib t = some false ∧ h.transitions lib = some [] ∧
    h.getLocation lib = Except.ok [] := by
  obtain ⟨m⟩ := h
  cases m with
  | some w => simp [TimeZone.isValid] at hinv
  | none =>
    simp [TimeZone.name, TimeZone.abbr, TimeZone.offset, TimeZone.dst, TimeZone.transitions,
      TimeZone.getLocation]

/-- Claim C8 at a concrete input: the default-constructed handle. -/
theorem invalid_handle_defaults_witness :
    TimeZone.default.isValid = false ∧
    TimeZone.default.name = some "" ∧ TimeZone.default.abbr 0 = some "" ∧
    TimeZone.default.offset sampleLib 1400000000 = some 0 ∧
    TimeZone.default.dst sampleLib 1400000000 = some false ∧
    TimeZone.default.transitions sampleLib = some [] ∧
    TimeZone.default.getLocation sampleLib = Except.ok [] :=
  ⟨by decide, invalid_handle_defaults sampleLib TimeZone.default 1400000000 0 (by decide)⟩

/-- Claim C9 as stated fails: for the Abbreviation-based zone with stored offset
35791395 minutes and DST flag 0, `(m - d*60) * -60` is -2147483700, which is not
an `int`, and `offset(t)` is 2147483596. -/
theorem abbr_offset_overflow :
    (TimeZone.holding 1 TIMELIB_ZONETYPE_ABBR
      { TimeZoneInfoWrap.zeroed.tzi with
        abbr := { utc_offset := 35791395, abbr := "X", dst := 0 } }).offset sampleLib 0
      = some 2147483596 ∧
    ((35791395 : Int) - 0 * 60) * -60 = -2147483700 ∧
    (TimeZone.holding 1 TIMELIB_ZONETYPE_ABBR
      { TimeZoneInfoWrap.zeroed.tzi with
        abbr := { utc_offset := 35791395, abbr := "X", dst := 0 } }).offset sampleLib 0
      ≠ some (((35791395 : Int) - 0 * 60) * -60) := by
  decide

/-- Claim C9, amended: for an Abbreviation-based zone with stored abbreviation `a`,
offset `m` minutes and DST flag `d` such that `(m - d*60) * -60` is representable
as an `int`, and every timestamp `t` and type index `i`:
`offset(t) = (m - d*60) * -60`, `dst(t)` is true iff `d = 1`, and
`name() = abbr(i) = a`. -/
theorem abbr_zone_queries (lib : Lib) (addr : Nat) (u : TziUnion) (t i : Int)
    (hrep : isInt ((u.abbr.utc_offset - u.abbr.dst * 60) * -60)) :
    (TimeZone.holding addr TIMELIB_ZONETYPE_ABBR u).offset lib t
      = some ((u.abbr.utc_offset - u.abbr.dst * 60) * -60) ∧
    (TimeZone.holding addr TIMELIB_ZONETYPE_ABBR u).dst lib t = some (decide (u.abbr.dst = 1)) ∧
    (TimeZone.holding addr TIMELIB_ZONETYPE_ABBR u).name = some u.abbr.abbr ∧
    (TimeZone.holding addr TIMELIB_ZONETYPE_ABBR u).abbr i = some u.abbr.abbr := by
  refine ⟨?_, ?_, ?_, ?_⟩
  · simp only [TimeZone.offset, TimeZone.holding, TIMELIB_ZONETYPE_OFFSET, TIMELIB_ZONETYPE_ID,
      TIMELIB_ZONETYPE_ABBR]
    simp only [show ((2 : Int) = 3) = False by decide, show ((2 : Int) = 1) = False by decide,
      if_false, if_true]
    congr 1
    unfold isInt at hrep
    unfold toInt toSll
    omega
  · simp [TimeZone.dst, TimeZone.holding, TIMELIB_ZONETYPE_OFFSET, TIMELIB_ZONETYPE_ID,
      TIMELIB_ZONETYPE_ABBR]
  · simp [TimeZone.name, TimeZone.holding, TIMELIB_ZONETYPE_OFFSET, TIMELIB_ZONETYPE_ID,
      TIMELIB_ZONETYPE_ABBR]
  · simp [TimeZone.abbr, TimeZone.name, TimeZone.holding, TIMELIB_ZONETYPE_OFFSET,
      TIMELIB_ZONETYPE_ID, TIMELIB_ZONETYPE_ABBR]

/-- Claim C9, amended, at a concrete input: `EDT` stored as 300 minutes with DST
flag 1, which is UTC-4. -/
theorem abbr_zone_queries_witness :
    (TimeZone.holding 2 TIMELIB_ZONETYPE_ABBR
      { TimeZoneInfoWrap.zeroed.tzi with
        abbr := { utc_offset := 300, abbr := "EDT", dst := 1 } }).offset sampleLib 0
      = some ((300 - 1 * 60) * -60) ∧
    (TimeZone.holding 2 TIMELIB_ZONETYPE_ABBR
      { TimeZoneInfoWrap.zeroed.tzi with
        abbr := { utc_offset := 300, abbr := "EDT", dst := 1 } }).dst sampleLib 0 = some true :=
  ⟨(abbr_zone_queries sampleLib 2
      { TimeZoneInfoWrap.zeroed.tzi with abbr := { utc_offset := 300, abbr := "EDT", dst := 1 } }
      0 0 (by decide)).1,
   (abbr_zone_queries sampleLib 2
      { TimeZoneInfoWrap.zeroed.tzi with abbr := { utc_offset := 300, abbr := "EDT", dst := 1 } }
      0 0 (by decide)).2.1⟩

/-! ## Transitions -/

theorem transitionsLoop_spec (lib : Lib) (tz : timelib_tzinfo) (todo : Nat) :
    ∀ (i : Nat) (ret : List PhpArray),
      (∀ j, i ≤ j → j < i + todo → (TimeZone.transitionAt lib tz j).isSome = true) →
      ∃ L : List PhpArray, TimeZone.transitionsLoop lib tz todo i ret = some (ret ++ L) ∧
        L.length = todo ∧ ∀ k, k < todo → L[k]? = TimeZone.transitionAt lib tz (i + k) := by
  induction todo with
  | zero =>
    intro i ret _
    exact ⟨[], by simp [TimeZone.transitionsLoop], rfl, by intro k hk; omega⟩
  | succ n ih =>
    intro i ret hall
    have hi := hall i (Nat.le_refl i) (by omega)
    obtain ⟨e, he⟩ := Option.isSome_iff_exists.mp hi
    obtain ⟨L, hL, hlen, hget⟩ := ih (i + 1) (ret ++ [e]) (by
      intro j h1 h2
      exact hall j (by omega) (by omega))
    refine ⟨e :: L, ?_, by simp [hlen], ?_⟩
    · simp [TimeZone.transitionsLoop, he, hL]
    · intro k hk
      cases k with
      | zero => simp [he]
      | succ k =>
        have := hget k (by omega)
        simp only [List.getElem?_cons_succ, this]
        congr 1
        omega

theorem transitionAt_wellFormed (lib : Lib) (tz : timelib_tzinfo) (hwf : tz.wellFormed)
    (i : Nat) (hi : i < tz.timecnt) :
    ∃ index timestamp ti abbr,
      tz.trans_idx[i]? = some index ∧ tz.trans[i]? = some timestamp ∧
      tz.type[index]? = some ti ∧ cstrAt tz.timezone_abbr ti.abbr_idx = some abbr ∧
      TimeZone.transitionAt lib tz i =
        some [(s_ts, Variant.int timestamp),
              (s_time, Variant.str (lib.iso8601 timestamp)),
              (s_offset, Variant.int ti.offset),
              (s_isdst, Variant.bool (decide (ti.isdst ≠ 0))),
              (s_abbr, Variant.str abbr)] := by
  obtain ⟨h1, h2, h3⟩ := hwf
  have hx : i < tz.trans_idx.length := by omega
  have ht : i < tz.trans.length := by omega
  have e1 : tz.trans_idx[i]? = some tz.trans_idx[i] := List.getElem?_eq_getElem hx
  have e2 : tz.trans[i]? = some tz.trans[i] := List.getElem?_eq_getElem ht
  obtain ⟨ti, e3, e4⟩ := h3 _ (List.getElem_mem hx)
  obtain ⟨abbr, e5⟩ := Option.isSome_iff_exists.mp e4
  refine ⟨_, _, ti, abbr, e1, e2, e3, e5, ?_⟩
  simp only [TimeZone.transitionAt, e1, e2, e3, e5]

theorem timestampOf_entry (a : Int) (b c d e : Variant) :
    timestampOf [(s_ts, Variant.int a), (s_time, b), (s_offset, c), (s_isdst, d), (s_abbr, e)]
      = a := by
  simp [timestampOf, PhpArray.lookup]

theorem sampleTzinfo_wellFormed : sampleTzinfo.wellFormed := by
  refine ⟨rfl, rfl, ?_⟩
  intro index hmem
  have h : index = 1 ∨ index = 0 := by simpa [sampleTzinfo] using hmem
  rcases h with h | h
  · subst h; exact ⟨_, rfl, by decide⟩
  · subst h; exact ⟨_, rfl, by decide⟩

/-- Claim C10: for an Id-based zone whose (well-formed) rule table has `n`
transitions, `transitions()` returns exactly `n` entries in rule-table order,
entry `i` carrying the timestamp `trans[i]`, its ISO-8601 text, and the offset,
DST flag and abbreviation of the type entry `type[trans_idx[i]]`; the timestamps
of the output are the list `trans`, so the output is strictly increasing in
timestamp when `trans` is. For Fixed-offset and Abbreviation-based zones
`transitions()` is empty. -/
theorem transitions_spec (lib : Lib) (addr : Nat) (u : TziUnion) (tz : timelib_tzinfo)
    (htz : u.tz = some tz) (hwf : tz.wellFormed) :
    (∃ L : List PhpArray,
      (TimeZone.holding addr TIMELIB_ZONETYPE_ID u).transitions lib = some L ∧
      L.length = tz.timecnt ∧
      (∀ i, i < tz.timecnt → ∃ index timestamp ti abbr,
        tz.trans_idx[i]? = some index ∧ tz.trans[i]? = some timestamp ∧
        tz.type[index]? = some ti ∧ cstrAt tz.timezone_abbr ti.abbr_idx = some abbr ∧
        L[i]? = some [(s_ts, Variant.int timestamp),
              (s_time, Variant.str (lib.iso8601 timestamp)),
              (s_offset, Variant.int ti.offset),
              (s_isdst, Variant.bool (decide (ti.isdst ≠ 0))),
              (s_abbr, Variant.str abbr)]) ∧
      L.map timestampOf = tz.trans ∧
      (tz.trans.Pairwise (fun a b => a < b) → (L.map timestampOf).Pairwise (fun a b => a < b))) ∧
    (TimeZone.holding addr TIMELIB_ZONETYPE_OFFSET u).transitions lib = some [] ∧
    (TimeZone.holding addr TIMELIB_ZONETYPE_ABBR u).transitions lib = some [] := by
  refine ⟨?_, ?_, ?_⟩
  · obtain ⟨L, hL, hlen, hget⟩ := transitionsLoop_spec lib tz tz.timecnt 0 [] (by
      intro j _ hj
      obtain ⟨_, _, _, _, _, _, _, _, h⟩ := transitionAt_wellFormed lib tz hwf j (by omega)
      simp [h])
    have hentry : ∀ i, i < tz.timecnt → ∃ index timestamp ti abbr,
        tz.trans_idx[i]? = some index ∧ tz.trans[i]? = some timestamp ∧
        tz.type[index]? = some ti ∧ cstrAt tz.timezone_abbr ti.abbr_idx = some abbr ∧
        L[i]? = some [(s_ts, Variant.int timestamp),
              (s_time, Variant.str (lib.iso8601 timestamp)),
              (s_offset, Variant.int ti.offset),
              (s_isdst, Variant.bool (decide (ti.isdst ≠ 0))),
              (s_abbr, Variant.str abbr)] := by
      intro i hi
      obtain ⟨index, timestamp, ti, abbr, e1, e2, e3, e4, e5⟩ :=
        transitionAt_wellFormed lib tz hwf i hi
      refine ⟨index, timestamp, ti, abbr, e1, e2, e3, e4, ?_⟩
      rw [hget i hi, Nat.zero_add, e5]
    have hmap : L.map timestampOf = tz.trans := by
      apply List.ext_getElem?
      intro i
      by_cases hi : i < tz.timecnt
      · obtain ⟨index, timestamp, ti, abbr, _, e2, _, _, e5⟩ := hentry i hi
        rw [List.getElem?_map, e5, e2]
        simp [timestampOf_entry]
      · have h1 : L.length ≤ i := by omega
        have h2 : tz.trans.length ≤ i := by have := hwf.1; omega
        rw [List.getElem?_map, List.getElem?_eq_none h1, List.getElem?_eq_none h2]
        rfl
    refine ⟨L, ?_, hlen, hentry, hmap, ?_⟩
    · simp only [TimeZone.transitions, TimeZone.holding, TimeZone.get, htz, if_true]
      simpa using hL
    · intro hp
      rw [hmap]
      exact hp
  · simp [TimeZone.transitions, TimeZone.holding, TIMELIB_ZONETYPE_OFFSET, TIMELIB_ZONETYPE_ID]
  · simp [TimeZone.transitions, TimeZone.holding, TIMELIB_ZONETYPE_ABBR, TIMELIB_ZONETYPE_ID]

/-- Claim C10 at a concrete input: the sample rule table with transitions at 100
and 200. -/
theorem transitions_spec_witness :
    ∃ L : List PhpArray,
      (TimeZone.holding 3 TIMELIB_ZONETYPE_ID
        { TimeZoneInfoWrap.zeroed.tzi with tz := some sampleTzinfo }).transitions sampleLib
          = some L ∧
      L.length = 2 ∧ L.map timestampOf = [100, 200] ∧
      (L.map timestampOf).Pairwise (fun a b => a < b) := by
  obtain ⟨⟨L, h1, h2, _, h4, h5⟩, _⟩ := transitions_spec sampleLib 3
    { TimeZoneInfoWrap.zeroed.tzi with tz := some sampleTzinfo } sampleTzinfo rfl
    sampleTzinfo_wellFormed
  exact ⟨L, h1, h2, h4, h5 (by decide)⟩

/-! ## The cache across calls -/

theorem mapFind_mapAssign (m : MapStringToTimeZoneInfo) (key k : String) (v : TimeZoneInfo) :
    mapFind (mapAssign m key v) k = if k = key then some v else mapFind m k := by
  induction m with
  | nil =>
    by_cases h : k = key
    · simp [mapAssign, mapFind, h]
    · have h2 : ¬ key = k := fun e => h e.symm
      simp [mapAssign, mapFind, h, h2]
  | cons e rest ih =>
    obtain ⟨k0, w⟩ := e
    by_cases h0 : k0 = key
    · by_cases h : k = key
      · simp [mapAssign, mapFind, h0, h]
      · have h2 : ¬ key = k := fun e => h e.symm
        simp [mapAssign, mapFind, h0, h, h2]
    · by_cases h : k = key
      · subst h
        simp [mapAssign, mapFind, h0, mapFind_mapAssign_self]
      · by_cases h4 : k0 = k
        · simp [mapAssign, mapFind, h0, h, h4]
        · simp [mapAssign, mapFind, h0, h, h4, ih]

theorem mapAssign_length_of_miss (m : MapStringToTimeZoneInfo) (key : String) (v : TimeZoneInfo)
    (hmiss : mapFind m key = none) : (mapAssign m key v).length = m.length + 1 := by
  induction m with
  | nil => simp [mapAssign]
  | cons e rest ih =>
    obtain ⟨k0, w⟩ := e
    by_cases h0 : k0 = key
    · simp [mapFind, h0] at hmiss
    · simp only [mapFind, h0, if_false] at hmiss
      simp [mapAssign, h0, ih hmiss]

/-- The cache after one call: unchanged, or the old cache with the name added. -/
theorem GetTimeZoneInfo_cache_cases (lib : Lib) (wrap0 : TimeZoneInfo) (name : String)
    (db : timelib_tzdb) (s : TimeZoneData) :
    (GetTimeZoneInfo lib wrap0 name db s).2.Cache = s.Cache ∨
    (mapFind s.Cache name = none ∧
      ∃ w : SharedWrap, (GetTimeZoneInfo lib wrap0 name db s).1 = some w ∧
        (GetTimeZoneInfo lib wrap0 name db s).2.Cache = mapAssign s.Cache name (some w)) := by
  cases hc : mapFind s.Cache name with
  | some v => left; rw [GetTimeZoneInfo_hit lib wrap0 name db s v hc]
  | none =>
    by_cases hnf : (lib.timelib_parse_zone name db).not_found = 0
    · obtain ⟨w, _, hw⟩ := GetTimeZoneInfo_found_miss lib wrap0 name db s hc hnf
      right
      exact ⟨rfl, w, by rw [hw], by rw [hw]⟩
    · cases wrap0 with
      | none => left; rw [GetTimeZoneInfo_not_found_null lib name db s hc hnf]
      | some g =>
        right
        rw [GetTimeZoneInfo_not_found_nonnull lib g name db s hc hnf]
        exact ⟨rfl, g, rfl, rfl⟩

theorem GetTimeZoneInfo_keeps_present (lib : Lib) (wrap0 : TimeZoneInfo) (name : String)
    (db : timelib_tzdb) (s : TimeZoneData) (k : String)
    (hk : (mapFind s.Cache k).isSome = true) :
    (mapFind (GetTimeZoneInfo lib wrap0 name db s).2.Cache k).isSome = true := by
  rcases GetTimeZoneInfo_cache_cases lib wrap0 name db s with h | ⟨_, w, _, h⟩
  · rw [h]; exact hk
  · rw [h, mapFind_mapAssign]
    split
    · rfl
    · exact hk

theorem GetTimeZoneInfoLogged_fst (lib : Lib) (wrap0 : TimeZoneInfo) (name : String)
    (db : timelib_tzdb) (s : TimeZoneData) (log : List String) :
    (GetTimeZoneInfoLogged lib wrap0 name db s log).1 = GetTimeZoneInfo lib wrap0 name db s := by
  unfold GetTimeZoneInfoLogged
  cases hc : mapFind s.Cache name with
  | some v => simp [GetTimeZoneInfo_hit lib wrap0 name db s v hc]
  | none => rfl

/-- One logged call keeps the invariant of a found name `n`: it was parsed never,
or once and is a cache key since. -/
theorem GetTimeZoneInfoLogged_invariant (lib : Lib) (wrap0 : TimeZoneInfo) (name : String)
    (db : timelib_tzdb) (s : TimeZoneData) (log : List String) (n : String)
    (hfound : (lib.timelib_parse_zone n db).not_found = 0)
    (hinv : log.count n = 0 ∨ (log.count n = 1 ∧ (mapFind s.Cache n).isSome = true)) :
    (GetTimeZoneInfoLogged lib wrap0 name db s log).2.count n = 0 ∨
    ((GetTimeZoneInfoLogged lib wrap0 name db s log).2.count n = 1 ∧
      (mapFind (GetTimeZoneInfoLogged lib wrap0 name db s log).1.2.Cache n).isSome = true) := by
  unfold GetTimeZoneInfoLogged
  cases hc : mapFind s.Cache name with
  | some v => exact hinv
  | none =>
    simp only [List.count_append, List.count_singleton]
    by_cases hn : name = n
    · subst hn
      have h0 : log.count name = 0 := by
        rcases hinv with h | ⟨_, h⟩
        · exact h
        · rw [hc] at h; cases h
      obtain ⟨w, _, hw⟩ := GetTimeZoneInfo_found_miss lib wrap0 name db s hc hfound
      right
      refine ⟨by simp [h0], ?_⟩
      rw [hw]
      simp [mapFind_mapAssign_self]
    · have hb : (name == n) = false := by simpa using hn
      simp only [hb]
      rcases hinv with h | ⟨h1, h2⟩
      · left; simpa using h
      · right
        exact ⟨by simpa using h1, GetTimeZoneInfo_keeps_present lib wrap0 name db s n h2⟩

theorem resolveAll_invariant (lib : Lib) (db : timelib_tzdb) (n : String)
    (hfound : (lib.timelib_parse_zone n db).not_found = 0)
    (calls : List (TimeZoneInfo × String)) :
    ∀ (s : TimeZoneData) (log : List String),
      (log.count n = 0 ∨ (log.count n = 1 ∧ (mapFind s.Cache n).isSome = true)) →
      (resolveAll lib db calls s log).2.count n ≤ 1 := by
  induction calls with
  | nil =>
    intro s log hinv
    simp only [resolveAll]
    rcases hinv with h | ⟨h, _⟩ <;> omega
  | cons c rest ih =>
    intro s log hinv
    obtain ⟨wrap0, name⟩ := c
    simp only [resolveAll]
    exact ih _ _ (GetTimeZoneInfoLogged_invariant lib wrap0 name db s log n hfound hinv)

/-- Claim C11 as stated fails: `Not/AZone` is not found by the parser, so nothing
is cached for it, and two successive calls of `GetTimeZoneInfo` on it reach
`timelib_parse_zone` twice. -/
theorem not_found_name_parsed_twice :
    (sampleLib.timelib_parse_zone "Not/AZone" sampleDb).not_found = 1 ∧
    (resolveAll sampleLib sampleDb [(none, "Not/AZone"), (none, "Not/AZone")]
      sampleData []).2 = ["Not/AZone", "Not/AZone"] ∧
    ¬ ((resolveAll sampleLib sampleDb [(none, "Not/AZone"), (none, "Not/AZone")]
      sampleData []).2.count "Not/AZone" ≤ 1) := by
  decide

/-- Claim C11, amended: across any sequence of `GetTimeZoneInfo` calls of one
worker against one database, starting from any cache, every name the parser
reports as found is handed to `timelib_parse_zone` at most once. -/
theorem found_name_parsed_at_most_once (lib : Lib) (db : timelib_tzdb)
    (calls : List (TimeZoneInfo × String)) (s : TimeZoneData) (n : String)
    (hfound : (lib.timelib_parse_zone n db).not_found = 0) :
    (resolveAll lib db calls s []).2.count n ≤ 1 :=
  resolveAll_invariant lib db n hfound calls s [] (Or.inl (by simp))

/-- Claim C11, amended, at a concrete input: `UTC` asked for twice, with a name
that is not found in between. -/
theorem found_name_parsed_at_most_once_witness :
    (resolveAll sampleLib sampleDb [(none, "UTC"), (none, "Not/AZone"), (none, "UTC")]
      sampleData []).2.count "UTC" ≤ 1 :=
  found_name_parsed_at_most_once sampleLib sampleDb
    [(none, "UTC"), (none, "Not/AZone"), (none, "UTC")] sampleData "UTC" (by decide)

/-- What a found miss stores: a non-null zone info at the next free address whose
type tag is the parsed zone type, with the rule-table pointer for Id, the
returned offset for Fixed-offset, and for Abbreviation the returned offset, the
abbreviation text and the field `t->dst` of the time structure; the cache maps
the name to it afterwards. The out-parameter `dst` does not occur. -/
theorem GetTimeZoneInfo_miss_found_stores (lib : Lib) (wrap0 : TimeZoneInfo) (name : String)
    (db : timelib_tzdb) (s : TimeZoneData)
    (hmiss : mapFind s.Cache name = none)
    (hfound : (lib.timelib_parse_zone name db).not_found = 0) :
    ∃ w : SharedWrap,
      (GetTimeZoneInfo lib wrap0 name db s).1 = some w ∧
      w.obj.type = (lib.timelib_parse_zone name db).t.zone_type ∧
      (w.obj.type = TIMELIB_ZONETYPE_ID →
        w.obj.tzi.tz = (lib.timelib_parse_zone name db).t.tz_info) ∧
      (w.obj.type = TIMELIB_ZONETYPE_OFFSET →
        w.obj.tzi.utc_offset = (lib.timelib_parse_zone name db).ret) ∧
      (w.obj.type = TIMELIB_ZONETYPE_ABBR →
        w.obj.tzi.abbr = { dst := (lib.timelib_parse_zone name db).t.dst,
                           abbr := (lib.timelib_parse_zone name db).t.tz_abbr,
                           utc_offset := (lib.timelib_parse_zone name db).ret }) ∧
      mapFind (GetTimeZoneInfo lib wrap0 name db s).2.Cache name = some (some w) := by
  simp only [GetTimeZoneInfo, hmiss, hfound, if_true]
  refine ⟨_, rfl, ?_, ?_, ?_, ?_, ?_⟩
  · split_ifs <;> rfl
  · intro h
    split_ifs at h ⊢ <;> simp_all [TimeZoneInfoWrap.zeroed, TIMELIB_ZONETYPE_ID, TIMELIB_ZONETYPE_OFFSET, TIMELIB_ZONETYPE_ABBR]
  · intro h
    split_ifs at h ⊢ <;> simp_all [TimeZoneInfoWrap.zeroed, TIMELIB_ZONETYPE_ID, TIMELIB_ZONETYPE_OFFSET, TIMELIB_ZONETYPE_ABBR]
  · intro h
    split_ifs at h ⊢ <;> simp_all [TimeZoneInfoWrap.zeroed, TIMELIB_ZONETYPE_ID, TIMELIB_ZONETYPE_OFFSET, TIMELIB_ZONETYPE_ABBR]
  · exact mapFind_mapAssign_self _ _ _

/-- The DST flag stored for an abbreviation differs from the flag the parser
reports through its out-parameter `dst` whenever that differs from `t->dst`. -/
theorem GetTimeZoneInfo_abbr_dst_not_reported (lib : Lib) (wrap0 : TimeZoneInfo)
    (name : String) (db : timelib_tzdb) (s : TimeZoneData)
    (hmiss : mapFind s.Cache name = none)
    (hfound : (lib.timelib_parse_zone name db).not_found = 0)
    (habbr : (lib.timelib_parse_zone name db).t.zone_type = TIMELIB_ZONETYPE_ABBR)
    (hdiff : (lib.timelib_parse_zone name db).dst ≠ (lib.timelib_parse_zone name db).t.dst) :
    ∃ w : SharedWrap,
      (GetTimeZoneInfo lib wrap0 name db s).1 = some w ∧
      w.obj.type = TIMELIB_ZONETYPE_ABBR ∧
      w.obj.tzi.abbr.dst ≠ (lib.timelib_parse_zone name db).dst := by
  obtain ⟨w, h1, h2, _, _, h5, _⟩ :=
    GetTimeZoneInfo_miss_found_stores lib wrap0 name db s hmiss hfound
  have hty : w.obj.type = TIMELIB_ZONETYPE_ABBR := h2.trans habbr
  refine ⟨w, h1, hty, ?_⟩
  rw [h5 hty]
  exact fun h => hdiff h.symm

/-- Claim C12, evaluated where the code departs from it: `EDT` misses the empty
cache and the parser reports it as found, of Abbreviation kind, with payload
(DST flag 1, abbreviation `EDT`, 300 minutes). The zone info `GetTimeZoneInfo`
returns and caches has the right kind, abbreviation and minutes but DST flag 0,
so the handle answers `dst(t) = false` and `offset(t) = -18000`, where the
reported payload gives true and `(300 - 1*60) * -60 = -14400`. -/
theorem GetTimeZoneInfo_abbr_loses_reported_dst :
    mapFind sampleData.Cache "EDT" = none ∧
    (sampleLib.timelib_parse_zone "EDT" sampleDb).not_found = 0 ∧
    (sampleLib.timelib_parse_zone "EDT" sampleDb).t.zone_type = TIMELIB_ZONETYPE_ABBR ∧
    (sampleLib.timelib_parse_zone "EDT" sampleDb).dst = 1 ∧
    (sampleLib.timelib_parse_zone "EDT" sampleDb).t.tz_abbr = "EDT" ∧
    (sampleLib.timelib_parse_zone "EDT" sampleDb).ret = 300 ∧
    (GetTimeZoneInfo sampleLib none "EDT" sampleDb sampleData).1 =
      some { addr := 1,
             obj := { type := TIMELIB_ZONETYPE_ABBR,
                      tzi := { tz := none, utc_offset := 0,
                               abbr := { utc_offset := 300, abbr := "EDT", dst := 0 } } } } ∧
    mapFind (GetTimeZoneInfo sampleLib none "EDT" sampleDb sampleData).2.Cache "EDT" =
      some (GetTimeZoneInfo sampleLib none "EDT" sampleDb sampleData).1 ∧
    (TimeZone.mk (GetTimeZoneInfo sampleLib none "EDT" sampleDb sampleData).1).dst sampleLib 0
      = some false ∧
    (TimeZone.mk (GetTimeZoneInfo sampleLib none "EDT" sampleDb sampleData).1).offset sampleLib 0
      = some (-18000) ∧
    ((300 : Int) - 1 * 60) * -60 = -14400 := by
  decide

/-- Claim C16: `GetTimeZoneInfo` never evicts or replaces a cache entry: every key
present before the call is present after it with the same zone-info instance,
the only key that can be new is the name asked for, and the cache grows by at
most one entry. -/
theorem GetTimeZoneInfo_no_eviction (lib : Lib) (wrap0 : TimeZoneInfo) (name : String)
    (db : timelib_tzdb) (s : TimeZoneData) :
    (∀ (k : String) (v : TimeZoneInfo), mapFind s.Cache k = some v →
      mapFind (GetTimeZoneInfo lib wrap0 name db s).2.Cache k = some v) ∧
    (∀ k : String, mapFind (GetTimeZoneInfo lib wrap0 name db s).2.Cache k ≠ none →
      mapFind s.Cache k ≠ none ∨ k = name) ∧
    (GetTimeZoneInfo lib wrap0 name db s).2.Cache.length ≤ s.Cache.length + 1 := by
  rcases GetTimeZoneInfo_cache_cases lib wrap0 name db s with h | ⟨hmiss, w, _, h⟩
  · rw [h]
    exact ⟨fun _ _ hk => hk, fun _ hk => Or.inl hk, Nat.le_succ _⟩
  · rw [h]
    refine ⟨?_, ?_, ?_⟩
    · intro k v hk
      rw [mapFind_mapAssign]
      by_cases hkn : k = name
      · rw [hkn, hmiss] at hk; cases hk
      · simp [hkn, hk]
    · intro k hk
      by_cases hkn : k = name
      · exact Or.inr hkn
      · rw [mapFind_mapAssign] at hk
        simp only [hkn, if_false] at hk
        exact Or.inl hk
    · rw [mapAssign_length_of_miss _ _ _ hmiss]

/-! ## Abbreviation groups -/

theorem AbbrArray.lookup_appendAt (m : AbbrArray) (key k : String) (e : PhpArray) :
    AbbrArray.lookup (AbbrArray.appendAt m key e) k =
      if k = key then some ((AbbrArray.lookup m key).getD [] ++ [e])
      else AbbrArray.lookup m k := by
  induction m with
  | nil =>
    by_cases h : k = key
    · simp [AbbrArray.appendAt, AbbrArray.lookup, h]
    · have h2 : ¬ key = k := fun e => h e.symm
      simp [AbbrArray.appendAt, AbbrArray.lookup, h, h2]
  | cons p rest ih =>
    obtain ⟨k0, v⟩ := p
    by_cases h0 : k0 = key
    · by_cases h : k = key
      · simp [AbbrArray.appendAt, AbbrArray.lookup, h0, h]
      · have h2 : ¬ key = k := fun e => h e.symm
        simp [AbbrArray.appendAt, AbbrArray.lookup, h0, h, h2]
    · by_cases h : k = key
      · subst h
        simp [AbbrArray.appendAt, AbbrArray.lookup, h0, ih]
      · by_cases h4 : k0 = k
        · simp [AbbrArray.appendAt, AbbrArray.lookup, h0, h, h4]
        · simp [AbbrArray.appendAt, AbbrArray.lookup, h0, h, h4, ih]

theorem AbbrArray.mem_keys_iff (m : AbbrArray) (k : String) :
    k ∈ m.map Prod.fst ↔ (AbbrArray.lookup m k).isSome = true := by
  induction m with
  | nil => simp [AbbrArray.lookup]
  | cons p rest ih =>
    obtain ⟨k0, v⟩ := p
    by_cases h : k0 = k
    · simp [AbbrArray.lookup, h]
    · have h2 : ¬ k = k0 := fun e => h e.symm
      simp [AbbrArray.lookup, h, h2, ih]

theorem AbbrArray.keys_appendAt (m : AbbrArray) (key : String) (e : PhpArray) :
    (AbbrArray.appendAt m key e).map Prod.fst =
      if key ∈ m.map Prod.fst then m.map Prod.fst else m.map Prod.fst ++ [key] := by
  induction m with
  | nil => simp [AbbrArray.appendAt]
  | cons p rest ih =>
    obtain ⟨k0, v⟩ := p
    by_cases h0 : k0 = key
    · simp [AbbrArray.appendAt, h0]
    · have h2 : ¬ key = k0 := fun e => h0 e.symm
      simp only [AbbrArray.appendAt, h0, if_false, List.map_cons, ih, List.mem_cons, h2, false_or]
      split <;> simp

theorem AbbrArray.nodup_appendAt (m : AbbrArray) (key : String) (e : PhpArray)
    (h : (m.map Prod.fst).Nodup) : ((AbbrArray.appendAt m key e).map Prod.fst).Nodup := by
  rw [AbbrArray.keys_appendAt]
  split
  · exact h
  · rename_i hk
    exact List.Nodup.append h (List.nodup_singleton key) (by
      intro a ha hb
      simp only [List.mem_singleton] at hb
      exact hk (hb ▸ ha))

theorem AbbrArray.sizes_appendAt (m : AbbrArray) (key : String) (e : PhpArray) :
    ((AbbrArray.appendAt m key e).map (fun p => p.2.length)).sum =
      (m.map (fun p => p.2.length)).sum + 1 := by
  induction m with
  | nil => simp [AbbrArray.appendAt]
  | cons p rest ih =>
    obtain ⟨k0, v⟩ := p
    by_cases h0 : k0 = key
    · simp [AbbrArray.appendAt, h0]; omega
    · simp [AbbrArray.appendAt, h0, ih]; omega

theorem abbreviationsLoop_nodup (table : List timelib_tz_lookup_table) :
    ∀ ret : AbbrArray, (ret.map Prod.fst).Nodup →
      ((abbreviationsLoop table ret).map Prod.fst).Nodup := by
  induction table with
  | nil => intro ret h; exact h
  | cons e rest ih =>
    intro ret h
    exact ih _ (AbbrArray.nodup_appendAt ret e.name _ h)

theorem abbreviationsLoop_sizes (table : List timelib_tz_lookup_table) :
    ∀ ret : AbbrArray,
      ((abbreviationsLoop table ret).map (fun p => p.2.length)).sum =
        (ret.map (fun p => p.2.length)).sum + table.length := by
  induction table with
  | nil => intro ret; simp [abbreviationsLoop]
  | cons e rest ih =>
    intro ret
    simp only [abbreviationsLoop, ih, AbbrArray.sizes_appendAt, List.length_cons]
    omega

theorem abbreviationsLoop_lookup (table : List timelib_tz_lookup_table) (k : String) :
    ∀ ret : AbbrArray,
      AbbrArray.lookup (abbreviationsLoop table ret) k =
        match AbbrArray.lookup ret k with
        | some v =>
          some (v ++ (table.filter (fun e => decide (e.name = k))).map abbreviationElement)
        | none =>
          if (table.filter (fun e => decide (e.name = k))) = [] then none
          else some ((table.filter (fun e => decide (e.name = k))).map abbreviationElement) := by
  induction table with
  | nil =>
    intro ret
    cases h : AbbrArray.lookup ret k <;> simp [abbreviationsLoop, h]
  | cons e rest ih =>
    intro ret
    simp only [abbreviationsLoop]
    rw [ih, AbbrArray.lookup_appendAt]
    by_cases hk : k = e.name
    · subst hk
      cases h : AbbrArray.lookup ret e.name <;> simp [h]
    · have hk2 : ¬ e.name = k := fun x => hk x.symm
      cases h : AbbrArray.lookup ret k <;> simp [h, hk, hk2]

theorem abbreviationElement_eq (entry : timelib_tz_lookup_table) :
    abbreviationElement entry =
      [(s_dst, Variant.bool (decide (entry.type ≠ 0))),
       (s_offset, Variant.int entry.gmtoffset),
       (s_timezone_id,
         match entry.full_tz_name with
         | some full => Variant.str full
         | none => Variant.null)] := by
  cases h : entry.full_tz_name <;>
    simp [abbreviationElement, PhpArray.set, s_dst, s_offset, s_timezone_id, h]

/-- Claim C13: for every abbreviation table, the keys of `GetAbbreviations()` are
exactly the distinct names of the table; the value at a key `k` is the list, in
table order, of the records (`dst = (type != 0)`, `offset = gmtoffset`,
`timezone_id` = full zone name, or null when absent) of exactly the rows named
`k`; and the group sizes sum to the table length. -/
theorem GetAbbreviations_groups (lib : Lib) :
    ((GetAbbreviations lib).map Prod.fst).Nodup ∧
    (∀ k : String, k ∈ (GetAbbreviations lib).map Prod.fst ↔
      ∃ e ∈ lib.timelib_timezone_abbreviations_list, e.name = k) ∧
    (∀ k : String, k ∈ (GetAbbreviations lib).map Prod.fst →
      AbbrArray.lookup (GetAbbreviations lib) k =
        some ((lib.timelib_timezone_abbreviations_list.filter
          (fun e => decide (e.name = k))).map
            (fun e => [(s_dst, Variant.bool (decide (e.type ≠ 0))),
                       (s_offset, Variant.int e.gmtoffset),
                       (s_timezone_id,
                         match e.full_tz_name with
                         | some full => Variant.str full
                         | none => Variant.null)]))) ∧
    ((GetAbbreviations lib).map (fun p => p.2.length)).sum =
      lib.timelib_timezone_abbreviations_list.length := by
  have hl : ∀ k : String, AbbrArray.lookup (GetAbbreviations lib) k =
      if (lib.timelib_timezone_abbreviations_list.filter (fun e => decide (e.name = k))) = []
      then none
      else some ((lib.timelib_timezone_abbreviations_list.filter
        (fun e => decide (e.name = k))).map abbreviationElement) := by
    intro k
    unfold GetAbbreviations
    rw [abbreviationsLoop_lookup]
    rfl
  have hfun : abbreviationElement = (fun e => [(s_dst, Variant.bool (decide (e.type ≠ 0))),
                       (s_offset, Variant.int e.gmtoffset),
                       (s_timezone_id,
                         match e.full_tz_name with
                         | some full => Variant.str full
                         | none => Variant.null)]) := by
    funext e
    exact abbreviationElement_eq e
  have hkeys : ∀ k : String, k ∈ (GetAbbreviations lib).map Prod.fst ↔
      ∃ e ∈ lib.timelib_timezone_abbreviations_list, e.name = k := by
    intro k
    rw [AbbrArray.mem_keys_iff, hl k]
    by_cases hf : (lib.timelib_timezone_abbreviations_list.filter
        (fun e => decide (e.name = k))) = []
    · simp only [hf, if_true, Option.isSome_none, Bool.false_eq_true, false_iff]
      rintro ⟨e, he, hek⟩
      have : e ∈ lib.timelib_timezone_abbreviations_list.filter
          (fun e => decide (e.name = k)) := by
        simp [List.mem_filter, he, hek]
      rw [hf] at this
      cases this
    · simp only [hf, if_false, Option.isSome_some, true_iff]
      obtain ⟨e, he⟩ := List.exists_mem_of_ne_nil _ hf
      rw [List.mem_filter] at he
      exact ⟨e, he.1, by simpa using he.2⟩
  refine ⟨?_, hkeys, ?_, ?_⟩
  · exact abbreviationsLoop_nodup _ [] (by simp)
  · intro k hk
    rw [hl k, ← hfun]
    have hne : (lib.timelib_timezone_abbreviations_list.filter
        (fun e => decide (e.name = k))) ≠ [] := by
      obtain ⟨e, he, hek⟩ := (hkeys k).mp hk
      intro hf
      have : e ∈ lib.timelib_timezone_abbreviations_list.filter
          (fun e => decide (e.name = k)) := by
        simp [List.mem_filter, he, hek]
      rw [hf] at this
      cases this
    simp [hne]
  · unfold GetAbbreviations
    rw [abbreviationsLoop_sizes]
    simp

/-! ## The warning of the resolver, sequences of `SetCurrent` -/

/-- The diagnostics after `CurrentName`: the strict warning is appended exactly
when no alternative before the guessed zone is satisfied. -/
theorem CurrentName_raised (lib : Lib) (g : GuessedTimeZone) (st : Worker) :
    (CurrentName lib g st).2.raised =
      if noAlternative st.g_context.getTimeZone st.env_TZ st.g_context.getDefaultTimeZone
          (fun n => (IsValid lib n st).1) = true
      then st.raised ++ [{ level := ErrorLevel.strictWarning, message := g.m_warning }]
      else st.raised := by
  unfold CurrentName noAlternative
  by_cases hc : st.g_context.getTimeZone = ""
  · simp only [hc, ne_eq, not_true_eq_false, if_false]
    cases henv : st.env_TZ with
    | none =>
      by_cases hd : st.g_context.getDefaultTimeZone = ""
      · simp [hd, raise_strict_warning]
      · by_cases hv : (IsValid lib st.g_context.getDefaultTimeZone st).1 = true
        · simp [hd, hv, IsValid_frame]
        · simp [hd, hv, raise_strict_warning, IsValid_frame]
    | some env =>
      by_cases he : env = ""
      · by_cases hd : st.g_context.getDefaultTimeZone = ""
        · simp [he, hd, raise_strict_warning]
        · by_cases hv : (IsValid lib st.g_context.getDefaultTimeZone st).1 = true
          · simp [he, hd, hv, IsValid_frame]
          · simp [he, hd, hv, raise_strict_warning, IsValid_frame]
      · by_cases hev : (IsValid lib env st).1 = true
        · simp [he, hev, IsValid_frame]
        · have hg := (IsValid_frame lib env st).1
          by_cases hd : st.g_context.getDefaultTimeZone = ""
          · simp [he, hev, hd, hg, raise_strict_warning, IsValid_frame]
          · by_cases hv : (IsValid lib st.g_context.getDefaultTimeZone st).1 = true
            · simp [he, hev, hd, hg, IsValid_after_IsValid, hv, IsValid_frame]
            · simp [he, hev, hd, hg, IsValid_after_IsValid, hv, raise_strict_warning,
                IsValid_frame]
  · simp [hc]

theorem CurrentName_eq_priorityChain (lib : Lib) (g : GuessedTimeZone) (st : Worker) :
    (CurrentName lib g st).1 =
      priorityChain st.g_context.getTimeZone st.env_TZ st.g_context.getDefaultTimeZone
        (fun n => (IsValid lib n st).1) g.m_tzid := by
  unfold CurrentName priorityChain
  by_cases hc : st.g_context.getTimeZone = ""
  · simp only [hc, ne_eq, not_true_eq_false, if_false]
    cases henv : st.env_TZ with
    | none =>
      by_cases hd : st.g_context.getDefaultTimeZone = ""
      · simp [hd]
      · by_cases hv : (IsValid lib st.g_context.getDefaultTimeZone st).1 = true
        · simp [hd, hv]
        · simp [hd, hv]
    | some env =>
      by_cases he : env = ""
      · by_cases hd : st.g_context.getDefaultTimeZone = ""
        · simp [he, hd]
        · by_cases hv : (IsValid lib st.g_context.getDefaultTimeZone st).1 = true
          · simp [he, hd, hv]
          · simp [he, hd, hv]
      · by_cases hev : (IsValid lib env st).1 = true
        · simp [he, hev]
        · have hg := (IsValid_frame lib env st).1
          by_cases hd : st.g_context.getDefaultTimeZone = ""
          · simp [he, hev, hd, hg]
          · by_cases hv : (IsValid lib st.g_context.getDefaultTimeZone st).1 = true
            · simp [he, hev, hd, hg, IsValid_after_IsValid, hv]
            · simp [he, hev, hd, hg, IsValid_after_IsValid, hv]
  · simp [hc]

theorem priorityChain_of_noAlternative (configured : String) (tz : Option String)
    (processDefault : String) (valid : String → Bool) (guessed : String)
    (h : noAlternative configured tz processDefault valid = true) :
    priorityChain configured tz processDefault valid guessed = guessed := by
  unfold noAlternative at h
  unfold priorityChain
  cases tz with
  | none =>
    simp only [Bool.and_eq_true, Bool.or_eq_true, decide_eq_true_eq, Bool.not_eq_true'] at h
    obtain ⟨⟨h1, _⟩, h3⟩ := h
    rcases h3 with h3 | h3 <;> simp [h1, h3]
  | some env =>
    simp only [Bool.and_eq_true, Bool.or_eq_true, decide_eq_true_eq, Bool.not_eq_true'] at h
    obtain ⟨⟨h1, h2⟩, h3⟩ := h
    rcases h2 with h2 | h2 <;> rcases h3 with h3 | h3 <;> simp [h1, h2, h3]

/-- Claim C14: `CurrentName()` raises the strict warning exactly when it falls
through to the guessed zone. When the configured timezone is empty, `TZ` is
unset, empty or invalid and the process default is empty or invalid, it returns
the precomputed guessed id and raises exactly one strict warning carrying the
precomputed warning text; otherwise it raises nothing. -/
theorem CurrentName_warning (lib : Lib) (g : GuessedTimeZone) (st : Worker) :
    (noAlternative st.g_context.getTimeZone st.env_TZ st.g_context.getDefaultTimeZone
        (fun n => (IsValid lib n st).1) = true →
      (CurrentName lib g st).1 = g.m_tzid ∧
      (CurrentName lib g st).2.raised =
        st.raised ++ [{ level := ErrorLevel.strictWarning, message := g.m_warning }]) ∧
    (noAlternative st.g_context.getTimeZone st.env_TZ st.g_context.getDefaultTimeZone
        (fun n => (IsValid lib n st).1) = false →
      (CurrentName lib g st).2.raised = st.raised) := by
  constructor
  · intro h
    refine ⟨?_, ?_⟩
    · rw [CurrentName_eq_priorityChain]
      exact priorityChain_of_noAlternative _ _ _ _ _ h
    · rw [CurrentName_raised, if_pos h]
  · intro h
    rw [CurrentName_raised, h]
    simp

theorem priorityChain_valid_or_guessed (configured : String) (tz : Option String)
    (processDefault : String) (valid : String → Bool) (guessed : String)
    (h : configured = "" ∨ valid configured = true) :
    valid (priorityChain configured tz processDefault valid guessed) = true ∨
    priorityChain configured tz processDefault valid guessed = guessed := by
  unfold priorityChain
  by_cases hc : configured = ""
  · simp only [hc, ne_eq, not_true_eq_false, if_false]
    cases tz with
    | none =>
      simp only
      split
      · rename_i h1; exact Or.inl h1.2
      · exact Or.inr rfl
    | some env =>
      simp only
      split
      · rename_i h1; exact Or.inl h1.2
      · split
        · rename_i h1; exact Or.inl h1.2
        · exact Or.inr rfl
  · rcases h with h | h
    · exact absurd h hc
    · simp [hc, h]

theorem IsValid_fst_congr (lib : Lib) (name : String) (st st2 : Worker)
    (h : (GetDatabase lib st2.s_timezone_data).1 = (GetDatabase lib st.s_timezone_data).1) :
    (IsValid lib name st2).1 = (IsValid lib name st).1 := by
  simp [IsValid, h]

theorem IsValid_timezone_data (lib : Lib) (name : String) (st : Worker) :
    (IsValid lib name st).2.s_timezone_data = (GetDatabase lib st.s_timezone_data).2 := rfl

theorem SetCurrent_timezone_data (lib : Lib) (name : String) (st : Worker) :
    (SetCurrent lib name st).2.s_timezone_data = (GetDatabase lib st.s_timezone_data).2 := by
  by_cases h : (IsValid lib name st).1 = false
  · simp [SetCurrent, h, raise_notice, IsValid_timezone_data]
  · simp [SetCurrent, h, IsValid_timezone_data]

theorem SetCurrent_g_context (lib : Lib) (name : String) (st : Worker) :
    (SetCurrent lib name st).2.g_context =
      if (IsValid lib name st).1 = true then st.g_context.setTimeZone name else st.g_context := by
  by_cases h : (IsValid lib name st).1 = true
  · simp [SetCurrent, h, IsValid_frame]
  · simp [SetCurrent, h, raise_notice, IsValid_frame]

theorem SetCurrent_IsValid (lib : Lib) (name n : String) (st : Worker) :
    (IsValid lib n (SetCurrent lib name st).2).1 = (IsValid lib n st).1 := by
  apply IsValid_fst_congr
  rw [SetCurrent_timezone_data, GetDatabase_idem]

theorem SetCurrent_keeps_valid (lib : Lib) (name : String) (st : Worker)
    (h : st.g_context.getTimeZone = "" ∨ (IsValid lib st.g_context.getTimeZone st).1 = true) :
    (SetCurrent lib name st).2.g_context.getTimeZone = "" ∨
    (IsValid lib (SetCurrent lib name st).2.g_context.getTimeZone (SetCurrent lib name st).2).1
      = true := by
  rw [SetCurrent_IsValid, SetCurrent_g_context]
  by_cases hv : (IsValid lib name st).1 = true
  · right
    simp [hv, ExecutionContext.setTimeZone, ExecutionContext.getTimeZone]
  · simp [hv, h]

theorem setCurrentAll_IsValid (lib : Lib) (n : String) (names : List String) :
    ∀ st : Worker, (IsValid lib n (setCurrentAll lib names st)).1 = (IsValid lib n st).1 := by
  induction names with
  | nil => intro st; rfl
  | cons name rest ih =>
    intro st
    simp only [setCurrentAll]
    rw [ih, SetCurrent_IsValid]

theorem setCurrentAll_keeps_valid (lib : Lib) (names : List String) :
    ∀ st : Worker,
      (st.g_context.getTimeZone = "" ∨ (IsValid lib st.g_context.getTimeZone st).1 = true) →
      ((setCurrentAll lib names st).g_context.getTimeZone = "" ∨
       (IsValid lib (setCurrentAll lib names st).g_context.getTimeZone
          (setCurrentAll lib names st)).1 = true) := by
  induction names with
  | nil => intro st h; exact h
  | cons name rest ih =>
    intro st h
    simp only [setCurrentAll]
    exact ih _ (SetCurrent_keeps_valid lib name st h)

/-- Claim C17: starting from an empty configured timezone, after any finite
sequence of `SetCurrent` calls the configured timezone is empty or a name for
which `IsValid` holds, and `CurrentName()` then returns an `IsValid` name or the
guessed id; validity of a name is the same before and after the sequence. -/
theorem setCurrentAll_configured_valid (lib : Lib) (g : GuessedTimeZone) (names : List String)
    (st0 : Worker) (hempty : st0.g_context.getTimeZone = "") :
    ((setCurrentAll lib names st0).g_context.getTimeZone = "" ∨
      (IsValid lib (setCurrentAll lib names st0).g_context.getTimeZone st0).1 = true) ∧
    ((IsValid lib (CurrentName lib g (setCurrentAll lib names st0)).1 st0).1 = true ∨
      (CurrentName lib g (setCurrentAll lib names st0)).1 = g.m_tzid) ∧
    (∀ n : String, (IsValid lib n (setCurrentAll lib names st0)).1 = (IsValid lib n st0).1) := by
  have hinv := setCurrentAll_keeps_valid lib names st0 (Or.inl hempty)
  have hsame := fun n => setCurrentAll_IsValid lib n names st0
  refine ⟨?_, ?_, hsame⟩
  · rw [← hsame]; exact hinv
  · rw [← hsame, CurrentName_eq_priorityChain]
    exact priorityChain_valid_or_guessed _ _ _ (fun n => (IsValid lib n _).1) _ hinv

/-- Claim C17 at a concrete input: `SetCurrent("UTC")` followed by the rejected
`SetCurrent("Not/AZone")`. -/
theorem setCurrentAll_configured_valid_witness :
    ((setCurrentAll sampleLib ["UTC", "Not/AZone"]
        { sampleWorker with g_context := { m_timezone := "", m_timezoneDefault := "" } }
      ).g_context.getTimeZone = "" ∨
      (IsValid sampleLib (setCurrentAll sampleLib ["UTC", "Not/AZone"]
        { sampleWorker with g_context := { m_timezone := "", m_timezoneDefault := "" } }
      ).g_context.getTimeZone
        { sampleWorker with g_context := { m_timezone := "", m_timezoneDefault := "" } }).1
        = true) :=
  (setCurrentAll_configured_valid sampleLib sampleGuess ["UTC", "Not/AZone"]
    { sampleWorker with g_context := { m_timezone := "", m_timezoneDefault := "" } } rfl).1

/-! ## Location -/

/-- Claim C15: `getLocation()` returns the empty result, and does not fail, on an
invalid handle and on every handle that is not Id-based, whether or not location
metadata is compiled in. On an Id-based handle it returns the country code,
latitude, longitude and comments of the rule table when metadata is compiled in,
and throws the not-implemented exception when it is not. -/
theorem getLocation_spec (lib : Lib) (addr : Nat) (type : Int) (u : TziUnion) :
    TimeZone.default.getLocation lib = Except.ok [] ∧
    (type ≠ TIMELIB_ZONETYPE_ID →
      (TimeZone.holding addr type u).getLocation lib = Except.ok []) ∧
    (TimeZone.holding addr TIMELIB_ZONETYPE_OFFSET u).getLocation lib = Except.ok [] ∧
    (TimeZone.holding addr TIMELIB_ZONETYPE_ABBR u).getLocation lib = Except.ok [] ∧
    (∀ tz : timelib_tzinfo, u.tz = some tz → lib.have_tzlocation = true →
      (TimeZone.holding addr TIMELIB_ZONETYPE_ID u).getLocation lib =
        Except.ok [(s_country_code, Variant.str tz.location.country_code),
                   (s_latitude, Variant.dbl tz.location.latitude),
                   (s_longitude, Variant.dbl tz.location.longitude),
                   (s_comments, Variant.str tz.location.comments)]) ∧
    (lib.have_tzlocation = false →
      (TimeZone.holding addr TIMELIB_ZONETYPE_ID u).getLocation lib =
        Except.error (Failure.NotImplementedException "timelib version too old")) := by
  refine ⟨rfl, ?_, ?_, ?_, ?_, ?_⟩
  · intro h
    simp [TimeZone.getLocation, TimeZone.holding, h]
  · simp [TimeZone.getLocation, TimeZone.holding, TIMELIB_ZONETYPE_OFFSET, TIMELIB_ZONETYPE_ID]
  · simp [TimeZone.getLocation, TimeZone.holding, TIMELIB_ZONETYPE_ABBR, TIMELIB_ZONETYPE_ID]
  · intro tz htz hloc
    simp [TimeZone.getLocation, TimeZone.holding, TimeZone.get, htz, hloc, PhpArray.set,
      s_country_code, s_latitude, s_longitude, s_comments]
  · intro hloc
    simp [TimeZone.getLocation, TimeZone.holding, hloc]

end HPHP
